import Mathlib

/-!
# OpenGL-Lighting: `Pyramid/pSource.cpp`

A shallow embedding of the pyramid lighting demo.  Every function of
`pSource.cpp` that carries logic is a Lean function with the name it has in
the source.  Library calls with an effect on the GPU, the window or the console
are recorded, in program order, as a list of `Event`s.

Numbers.  The host code computes in `float`, and GLFW reports cursor positions and
the time as `double`.  The two places where the program mixes the two types, the
cursor callback and the frame clock, are embedded with the IEEE-754 roundings
`toFloat` and `toDouble` on every conversion and operation.  The orbit update of the
lights is embedded twice: `orbitLight` is its reading in exact arithmetic over an ordered
field `K` (`ℚ` to run the model, `ℝ` with the real sine and cosine), which `URender` uses,
and `orbitLightFloat` is the computation of the program itself, every operation rounded
to binary32.  Everywhere else a `float` expression denotes the real number it would have
without rounding.

Outside the repository: GLM, GLFW, GLEW, stb_image and the GLSL built-ins.
The class `Camera` lives in the separate header `camera.h`; the program is embedded
for an arbitrary camera (`CameraApi`).
-/

namespace PyramidLighting

/-! ## Numbers -/

section Numbers

variable {K : Type} [LinearOrderedField K] [FloorRing K]

/-- Nearest integer, a tie going to the even neighbour (the IEEE-754 default rounding). -/
def roundHalfEven (q : K) : ℤ :=
  if q - ⌊q⌋ < 1 / 2 then ⌊q⌋
  else if 1 / 2 < q - ⌊q⌋ then ⌊q⌋ + 1
  else if ⌊q⌋ % 2 = 0 then ⌊q⌋ else ⌊q⌋ + 1

/-- Spacing of the binary floating-point numbers with `p` significand bits and least
normal exponent `emin` around `q`: `2 ^ (e - (p - 1))` with `2 ^ e ≤ |q| < 2 ^ (e + 1)`,
the exponent being held at `emin` in the subnormal range. -/
def quantum (p : ℕ) (emin : ℤ) (q : K) : K :=
  (2 : K) ^ (max (Int.log 2 |q|) emin - ((p : ℤ) - 1))

/-- Rounding of a real number to the nearest binary floating-point number with `p`
significand bits, ties to even.  Overflow to infinity is left out: the value is the
rounded number also beyond the largest finite one. -/
def roundBinary (p : ℕ) (emin : ℤ) (q : K) : K :=
  if q = 0 then 0
  else (roundHalfEven (q / quantum p emin q) : K) * quantum p emin q

/-- Value of a C++ expression converted to, or computed in, `float` (binary32). -/
def toFloat (q : K) : K := roundBinary 24 (-126) q

/-- Value of a C++ expression computed in `double` (binary64). -/
def toDouble (q : K) : K := roundBinary 53 (-1022) q

/-- A finite number that a `float` holds exactly. -/
def IsFloat (q : K) : Prop := toFloat q = q ∧ |q| < (2 : K) ^ (128 : ℕ)

end Numbers

/-! ## GLM vectors and matrices -/

/-- The type `glm::vec3`. -/
structure Vec3 (K : Type) where
  x : K
  y : K
  z : K
deriving DecidableEq, Repr

/-- The type `glm::vec4`. -/
structure Vec4 (K : Type) where
  x : K
  y : K
  z : K
  w : K
deriving DecidableEq, Repr

/-- The type `glm::mat4`, stored by columns as in GLM (`m[i]` is column `i`). -/
structure Mat4 (K : Type) where
  c0 : Vec4 K
  c1 : Vec4 K
  c2 : Vec4 K
  c3 : Vec4 K
deriving DecidableEq, Repr

/-- The functions of the C math library that GLM calls, and the constant the
program's angles are measured with. -/
structure Libm (K : Type) where
  cos : K → K
  sin : K → K
  tan : K → K
  sqrt : K → K
  pi : K

section Glm

variable {K : Type} [Field K]

/-- GLM `radians`: degrees times pi / 180. -/
def radians (T : Libm K) (degrees : K) : K := degrees * (T.pi / 180)

/-- GLM `normalize` on `vec3`: `v * inversesqrt(dot(v, v))`. -/
def glmNormalize (T : Libm K) (v : Vec3 K) : Vec3 K :=
  let inversesqrt := 1 / T.sqrt (v.x * v.x + v.y * v.y + v.z * v.z)
  ⟨v.x * inversesqrt, v.y * inversesqrt, v.z * inversesqrt⟩

/-- GLM `rotate(angle, v)` of `gtx/transform`, that is `rotate(mat4(1), angle, v)`:
the matrix of the rotation by `angle` about the axis `v`. -/
def rotate (T : Libm K) (angle : K) (v : Vec3 K) : Mat4 K :=
  let c := T.cos angle
  let s := T.sin angle
  let axis := glmNormalize T v
  let temp : Vec3 K := ⟨(1 - c) * axis.x, (1 - c) * axis.y, (1 - c) * axis.z⟩
  { c0 := ⟨c + temp.x * axis.x, temp.x * axis.y + s * axis.z, temp.x * axis.z - s * axis.y, 0⟩
    c1 := ⟨temp.y * axis.x - s * axis.z, c + temp.y * axis.y, temp.y * axis.z + s * axis.x, 0⟩
    c2 := ⟨temp.z * axis.x + s * axis.y, temp.z * axis.y - s * axis.x, c + temp.z * axis.z, 0⟩
    c3 := ⟨0, 0, 0, 1⟩ }

/-- GLM `translate(v)`, that is `translate(mat4(1), v)`. -/
def translate (v : Vec3 K) : Mat4 K :=
  { c0 := ⟨1, 0, 0, 0⟩, c1 := ⟨0, 1, 0, 0⟩, c2 := ⟨0, 0, 1, 0⟩, c3 := ⟨v.x, v.y, v.z, 1⟩ }

/-- GLM `scale(v)`, that is `scale(mat4(1), v)`. -/
def scale (v : Vec3 K) : Mat4 K :=
  { c0 := ⟨v.x, 0, 0, 0⟩, c1 := ⟨0, v.y, 0, 0⟩, c2 := ⟨0, 0, v.z, 0⟩, c3 := ⟨0, 0, 0, 1⟩ }

/-- GLM `perspective(fovy, aspect, zNear, zFar)` (right-handed, depth -1 to 1). -/
def perspective (T : Libm K) (fovy aspect zNear zFar : K) : Mat4 K :=
  let tanHalfFovy := T.tan (fovy / 2)
  { c0 := ⟨1 / (aspect * tanHalfFovy), 0, 0, 0⟩
    c1 := ⟨0, 1 / tanHalfFovy, 0, 0⟩
    c2 := ⟨0, 0, -(zFar + zNear) / (zFar - zNear), -1⟩
    c3 := ⟨0, 0, -(2 * zFar * zNear) / (zFar - zNear), 0⟩ }

/-- GLM `mat4 * vec4`: the linear combination of the columns. -/
def Mat4.mulVec (m : Mat4 K) (v : Vec4 K) : Vec4 K :=
  { x := m.c0.x * v.x + m.c1.x * v.y + m.c2.x * v.z + m.c3.x * v.w
    y := m.c0.y * v.x + m.c1.y * v.y + m.c2.y * v.z + m.c3.y * v.w
    z := m.c0.z * v.x + m.c1.z * v.y + m.c2.z * v.z + m.c3.z * v.w
    w := m.c0.w * v.x + m.c1.w * v.y + m.c2.w * v.z + m.c3.w * v.w }

/-- GLM `mat4 * mat4`: column `i` of the product is `a * b[i]`. -/
def Mat4.mul (a b : Mat4 K) : Mat4 K :=
  { c0 := a.mulVec b.c0, c1 := a.mulVec b.c1, c2 := a.mulVec b.c2, c3 := a.mulVec b.c3 }

end Glm

/-! ## Program data -/

/-- The struct `GLMesh`. -/
structure GLMesh where
  vao : ℕ
  vbo : ℕ
  nVertices : ℕ
deriving DecidableEq, Repr

/-- The class `GLLight`. -/
structure GLLight (K : Type) where
  shaderProgram : ℕ
  lightPosition : Vec3 K
  lightScale : Vec3 K
  lightColor : Vec3 K
  lightIntensity : K
deriving DecidableEq, Repr

section Orbit

variable {K : Type} [Field K]

/-- Body of the orbit loop of `URender` for one light, in exact arithmetic: the position is
replaced by `rotate(angularVelocity * gDeltaTime, (0, 1, 0)) * vec4(lightPosition, 1)`,
with `angularVelocity = radians(45)`; the other members are not written.  The binary32
computation of the program is `orbitLightFloat`. -/
def orbitLight (T : Libm K) (gDeltaTime : K) (light : GLLight K) : GLLight K :=
  let angularVelocity := radians T 45
  let newPosition := (rotate T (angularVelocity * gDeltaTime) ⟨0, 1, 0⟩).mulVec
    ⟨light.lightPosition.x, light.lightPosition.y, light.lightPosition.z, 1⟩
  { light with lightPosition := ⟨newPosition.x, newPosition.y, newPosition.z⟩ }

/-- First block of `URender`: when `gIsLampOrbiting` is set every light of
`gSceneLights` is moved by `orbitLight`, otherwise the vector is not touched. -/
def orbitStep (T : Libm K) (gIsLampOrbiting : Bool) (gDeltaTime : K)
    (gSceneLights : List (GLLight K)) : List (GLLight K) :=
  if gIsLampOrbiting then gSceneLights.map (orbitLight T gDeltaTime) else gSceneLights

end Orbit

section OrbitFloat

variable {K : Type} [LinearOrderedField K] [FloorRing K]

/-- GLM `radians` in `float`: degrees times the `float` nearest to the constant
0.01745329251994329576923690768489 of GLM. -/
def radiansFloat (degrees : K) : K :=
  toFloat (degrees * toFloat (1745329251994329576923690768489 / 10 ^ 32))

/-- GLM `normalize` on `vec3` in `float`: `dot` sums the three products from the left,
`inversesqrt` is `1 / sqrt`, every operation rounded. -/
def glmNormalizeFloat (T : Libm K) (v : Vec3 K) : Vec3 K :=
  let dot := toFloat (toFloat (toFloat (v.x * v.x) + toFloat (v.y * v.y)) + toFloat (v.z * v.z))
  let inversesqrt := toFloat (1 / T.sqrt dot)
  ⟨toFloat (v.x * inversesqrt), toFloat (v.y * inversesqrt), toFloat (v.z * inversesqrt)⟩

/-- GLM `rotate(angle, v)` in `float`: the formula of `rotate` with every operation
rounded; `T` gives the values of `cosf`, `sinf` and `sqrtf`.  The closing product with
the identity matrix multiplies by 1 and adds 0, which is exact, and is left out. -/
def rotateFloat (T : Libm K) (angle : K) (v : Vec3 K) : Mat4 K :=
  let c := T.cos angle
  let s := T.sin angle
  let axis := glmNormalizeFloat T v
  let temp : Vec3 K :=
    ⟨toFloat (toFloat (1 - c) * axis.x), toFloat (toFloat (1 - c) * axis.y),
      toFloat (toFloat (1 - c) * axis.z)⟩
  { c0 := ⟨toFloat (c + toFloat (temp.x * axis.x)),
           toFloat (toFloat (temp.x * axis.y) + toFloat (s * axis.z)),
           toFloat (toFloat (temp.x * axis.z) - toFloat (s * axis.y)), 0⟩
    c1 := ⟨toFloat (toFloat (temp.y * axis.x) - toFloat (s * axis.z)),
           toFloat (c + toFloat (temp.y * axis.y)),
           toFloat (toFloat (temp.y * axis.z) + toFloat (s * axis.x)), 0⟩
    c2 := ⟨toFloat (toFloat (temp.z * axis.x) + toFloat (s * axis.y)),
           toFloat (toFloat (temp.z * axis.y) - toFloat (s * axis.x)),
           toFloat (c + toFloat (temp.z * axis.z)), 0⟩
    c3 := ⟨0, 0, 0, 1⟩ }

/-- GLM `mat4 * vec4` in `float`: `(m[0] * v[0] + m[1] * v[1]) + (m[2] * v[2] + m[3] * v[3])`,
every operation rounded. -/
def Mat4.mulVecFloat (m : Mat4 K) (v : Vec4 K) : Vec4 K :=
  { x := toFloat (toFloat (toFloat (m.c0.x * v.x) + toFloat (m.c1.x * v.y))
          + toFloat (toFloat (m.c2.x * v.z) + toFloat (m.c3.x * v.w)))
    y := toFloat (toFloat (toFloat (m.c0.y * v.x) + toFloat (m.c1.y * v.y))
          + toFloat (toFloat (m.c2.y * v.z) + toFloat (m.c3.y * v.w)))
    z := toFloat (toFloat (toFloat (m.c0.z * v.x) + toFloat (m.c1.z * v.y))
          + toFloat (toFloat (m.c2.z * v.z) + toFloat (m.c3.z * v.w)))
    w := toFloat (toFloat (toFloat (m.c0.w * v.x) + toFloat (m.c1.w * v.y))
          + toFloat (toFloat (m.c2.w * v.z) + toFloat (m.c3.w * v.w))) }

/-- Body of the orbit loop of `URender` for one light as the program computes it, in
`float`: `orbitLight` with every operation rounded to binary32. -/
def orbitLightFloat (T : Libm K) (gDeltaTime : K) (light : GLLight K) : GLLight K :=
  let angularVelocity := radiansFloat 45
  let newPosition := (rotateFloat T (toFloat (angularVelocity * gDeltaTime)) ⟨0, 1, 0⟩).mulVecFloat
    ⟨light.lightPosition.x, light.lightPosition.y, light.lightPosition.z, 1⟩
  { light with lightPosition := ⟨newPosition.x, newPosition.y, newPosition.z⟩ }

end OrbitFloat

/-! ## Effects, inputs and global state -/

/-- A library call with an effect on the GPU, the window or the process, or a piece
of console output, in the order the program issues them.  `call` stands for a call
that only sets a mode or a parameter.  `glDeleteTextures` and `glDeleteShader` belong
to the vocabulary although no function of the program issues them, so that their
absence from a run can be stated. -/
inductive Event (K : Type) where
  | cout (text : String)
  | cerr (text : String)
  | call (name : String)
  | glfwCreateWindow (width height : ℤ) (title : String)
  | glfwTerminate
  | glfwSwapBuffers
  | glViewport (x y width height : ℤ)
  | glGenVertexArrays (name : ℕ)
  | glGenBuffers (name : ℕ)
  | glGenTextures (name : ℕ)
  | glCreateProgram (name : ℕ)
  | glCreateShader (name : ℕ)
  | glDeleteVertexArrays (name : ℕ)
  | glDeleteBuffers (name : ℕ)
  | glDeleteProgram (name : ℕ)
  | glDeleteTextures (name : ℕ)
  | glDeleteShader (name : ℕ)
  | glBindVertexArray (name : ℕ)
  | glBindBuffer (name : ℕ)
  | glBindTexture (name : ℕ)
  | glUseProgram (name : ℕ)
  | glBufferData (data : List K)
  | glShaderSource (shader : ℕ) (source : String)
  | glCompileShader (shader : ℕ)
  | glAttachShader (program shader : ℕ)
  | glLinkProgram (program : ℕ)
  | glTexImage2D (internalFormat : String) (width height : ℤ)
  | glGenerateMipmap
  | stbi_image_free
  | glUniform1i (program : ℕ) (name : String) (v : ℤ)
  | glUniform1f (program : ℕ) (name : String) (v : K)
  | glUniform2fv (program : ℕ) (name : String) (v : K × K)
  | glUniform3f (program : ℕ) (name : String) (v : Vec3 K)
  | glUniformMatrix4fv (program : ℕ) (name : String) (m : Mat4 K)
  | glDrawArrays (first count : ℕ)
deriving DecidableEq

/-- The enum `Camera_Movement` of `camera.h`, as far as `UProcessInput` names it. -/
inductive Camera_Movement where
  | FORWARD
  | BACKWARD
  | LEFT
  | RIGHT
  | UP
  | DOWN
deriving DecidableEq, Repr

/-- The members of class `Camera` (`camera.h`) that `pSource.cpp` uses; the program is
embedded for every implementation of them. -/
structure CameraApi (K Cam : Type) where
  make : Vec3 K → Cam
  ProcessKeyboard : Camera_Movement → K → Cam → Cam
  ProcessMouseMovement : K → K → Cam → Cam
  ProcessMouseScroll : K → Cam → Cam
  GetViewMatrix : Cam → Mat4 K
  Zoom : Cam → K
  Position : Cam → Vec3 K

/-- What `glfwGetKey(window, key) == GLFW_PRESS` answers for the keys `UProcessInput` asks about. -/
structure Keys where
  escape : Bool
  w : Bool
  s : Bool
  a : Bool
  d : Bool
  e : Bool
  q : Bool
  l : Bool
  k : Bool
deriving DecidableEq, Repr

/-- The constant `WINDOW_WIDTH`. -/
def WINDOW_WIDTH : ℤ := 800

/-- The constant `WINDOW_HEIGHT`. -/
def WINDOW_HEIGHT : ℤ := 600

/-- The constant `WINDOW_TITLE`. -/
def WINDOW_TITLE : String := "6-3 Assignment: Lighting a Pyramid By Paul K."

/-- The globals of the anonymous namespace of `pSource.cpp`, and the should-close flag
that GLFW keeps for `gWindow`. -/
structure App (K Cam : Type) where
  gMesh : GLMesh
  gTextureId : ℕ
  gUVScale : K × K
  gSceneLights : List (GLLight K)
  shaderProgramId : ℕ
  gCamera : Cam
  gLastX : K
  gLastY : K
  gDeltaTime : K
  gLastFrame : K
  gFirstMouse : Bool
  pyramidPosition : Vec3 K
  pyramidScale : Vec3 K
  gIsLampOrbiting : Bool
  windowShouldClose : Bool

section Program

variable {K Cam : Type} [LinearOrderedField K] [FloorRing K]

/-- The initial values of the globals (objects without initialiser are zero). -/
def initialApp (C : CameraApi K Cam) : App K Cam :=
  { gMesh := ⟨0, 0, 0⟩
    gTextureId := 0
    gUVScale := (1, 1)
    gSceneLights :=
      [ ⟨0, ⟨2, 1 / 2, 1⟩, ⟨3 / 10, 3 / 10, 3 / 10⟩, ⟨1 / 10, 8 / 10, 1 / 10⟩, 1⟩,
        ⟨0, ⟨-3, 2, 1⟩, ⟨3 / 10, 3 / 10, 3 / 10⟩, ⟨1 / 10, 1 / 10, 8 / 10⟩, 1 / 10⟩ ]
    shaderProgramId := 0
    gCamera := C.make ⟨0, 1 / 2, 7⟩
    gLastX := (WINDOW_WIDTH : K) / 2
    gLastY := (WINDOW_HEIGHT : K) / 2
    gDeltaTime := 0
    gLastFrame := 0
    gFirstMouse := true
    pyramidPosition := ⟨0, 0, 0⟩
    pyramidScale := ⟨1, 1, 1⟩
    gIsLampOrbiting := true
    windowShouldClose := false }

/-- The function `UInitialize`.  `windowCreated` tells whether `glfwCreateWindow` returned
a window, `glewOk` whether `glewInit` returned `GLEW_OK`. -/
def UInitialize (windowCreated glewOk : Bool) (glewErrorString : String) :
    Bool × List (Event K) :=
  let hints : List (Event K) :=
    [.call "glfwInit", .call "glfwWindowHint", .call "glfwWindowHint", .call "glfwWindowHint",
     .glfwCreateWindow WINDOW_WIDTH WINDOW_HEIGHT WINDOW_TITLE]
  if windowCreated then
    let setup : List (Event K) :=
      [.call "glfwMakeContextCurrent", .call "glfwSetFramebufferSizeCallback",
       .call "glfwSetCursorPosCallback", .call "glfwSetScrollCallback",
       .call "glfwSetInputMode", .call "glewInit"]
    if glewOk then (true, hints ++ setup)
    else (false, hints ++ setup ++ [.cerr (glewErrorString ++ "\n")])
  else (false, hints ++ [.cout "Failed to create GLFW window\n", .glfwTerminate])

/-- One movement test of `UProcessInput`:
`if (glfwGetKey(window, key) == GLFW_PRESS) gCamera.ProcessKeyboard(direction, gDeltaTime);` -/
def moveOnKey (C : CameraApi K Cam) (pressed : Bool) (direction : Camera_Movement)
    (app : App K Cam) : App K Cam :=
  if pressed then
    { app with gCamera := C.ProcessKeyboard direction app.gDeltaTime app.gCamera }
  else app

/-- The function `UProcessInput`.  The call `glfwSetWindowShouldClose(window, true)` sets
the should-close flag of the window. -/
def UProcessInput (C : CameraApi K Cam) (keys : Keys) (app : App K Cam) : App K Cam :=
  let app := if keys.escape then { app with windowShouldClose := true } else app
  let app := moveOnKey C keys.w .FORWARD app
  let app := moveOnKey C keys.s .BACKWARD app
  let app := moveOnKey C keys.a .LEFT app
  let app := moveOnKey C keys.d .RIGHT app
  let app := moveOnKey C keys.e .UP app
  let app := moveOnKey C keys.q .DOWN app
  if keys.l && !app.gIsLampOrbiting then { app with gIsLampOrbiting := true }
  else if keys.k && app.gIsLampOrbiting then { app with gIsLampOrbiting := false }
  else app

/-- The function `UResizeWindow`. -/
def UResizeWindow (width height : ℤ) : List (Event K) :=
  [.glViewport 0 0 width height]

/-- The function `UMousePositionCallback`.  `xpos` and `ypos` are `double`, the globals
`gLastX`, `gLastY` and the two offsets are `float`; each difference is computed in
`double` and converted when it is stored. -/
def UMousePositionCallback (C : CameraApi K Cam) (xpos ypos : K) (app : App K Cam) :
    App K Cam :=
  let app := if app.gFirstMouse then
    { app with gLastX := toFloat xpos, gLastY := toFloat ypos, gFirstMouse := false } else app
  let xoffset := toFloat (toDouble (xpos - app.gLastX))
  let yoffset := toFloat (toDouble (app.gLastY - ypos))
  { app with
    gLastX := toFloat xpos
    gLastY := toFloat ypos
    gCamera := C.ProcessMouseMovement xoffset yoffset app.gCamera }

/-- The function `UMouseScrollCallback` (the conversion of `yoffset` to the parameter
type belongs to the camera). -/
def UMouseScrollCallback (C : CameraApi K Cam) (_xoffset yoffset : K) (app : App K Cam) :
    App K Cam :=
  { app with gCamera := C.ProcessMouseScroll yoffset app.gCamera }

/-- The array `verts` of `UCreateMesh`: 18 vertices, each with position, normal and
texture coordinate. -/
def verts : List K :=
  [ -1, 0, -1,   0, -1, 0,   0, 0,
    -1, 0,  1,   0, -1, 0,   0, 1,
     1, 0,  1,   0, -1, 0,   1, 1,
     1, 0,  1,   0, -1, 0,   1, 1,
     1, 0, -1,   0, -1, 0,   1, 0,
    -1, 0, -1,   0, -1, 0,   0, 0,
    -1, 0, -1,  -1, 0, 0,    0, 0,
    -1, 0,  1,  -1, 0, 0,    1, 0,
     0, 1,  0,  -1, 0, 0,    1 / 2, 1,
    -1, 0, -1,   0, 0, -1,   0, 0,
     1, 0, -1,   0, 0, -1,   1, 0,
     0, 1,  0,   0, 0, -1,   1 / 2, 1,
     1, 0,  1,   1, 0, 0,    0, 0,
     1, 0, -1,   1, 0, 0,    1, 0,
     0, 1,  0,   1, 0, 0,    1 / 2, 1,
    -1, 0,  1,   0, 0, 1,    0, 0,
     1, 0,  1,   0, 0, 1,    1, 0,
     0, 1,  0,   0, 0, 1,    1 / 2, 1 ]

/-- Size in bytes of a `GLfloat`. -/
def sizeofGLfloat : ℕ := 4

/-- The function `UCreateMesh`; `vao` and `vbo` are the names that `glGenVertexArrays`
and `glGenBuffers` hand out. -/
def UCreateMesh (vao vbo : ℕ) : GLMesh × List (Event K) :=
  let floatsPerVertex := 3
  let floatsPerNormal := 3
  let floatsPerUV := 2
  let sizeofVerts := (verts : List K).length * sizeofGLfloat
  let nVertices := sizeofVerts / (sizeofGLfloat * (floatsPerVertex + floatsPerNormal + floatsPerUV))
  (⟨vao, vbo, nVertices⟩,
   [.glGenVertexArrays vao, .glBindVertexArray vao, .glGenBuffers vbo, .glBindBuffer vbo,
    .glBufferData verts,
    .call "glVertexAttribPointer", .call "glEnableVertexAttribArray",
    .call "glVertexAttribPointer", .call "glEnableVertexAttribArray",
    .call "glVertexAttribPointer", .call "glEnableVertexAttribArray"])

/-- The function `UDestroyMesh`. -/
def UDestroyMesh (mesh : GLMesh) : List (Event K) :=
  [.glDeleteVertexArrays mesh.vao, .glDeleteBuffers mesh.vbo]

/-- What `stbi_load` reports about a decoded image (the pixels play no role). -/
structure Image where
  width : ℤ
  height : ℤ
  channels : ℤ
deriving DecidableEq, Repr

/-- The function `UCreateTexture`.  `image` is the answer of `stbi_load` (`none` for a
null pointer), `genName` the name `glGenTextures` hands out, `textureId` the value of
the reference parameter on entry.  Result: return value, `textureId` on exit, effects. -/
def UCreateTexture (image : Option Image) (genName : ℕ) (textureId : ℕ) :
    Bool × ℕ × List (Event K) :=
  match image with
  | some img =>
    let start : List (Event K) :=
      [.call "stbi_load", .call "stbi_set_flip_vertically_on_load",
       .glGenTextures genName, .glBindTexture genName,
       .call "glTexParameteri", .call "glTexParameteri",
       .call "glTexParameteri", .call "glTexParameteri"]
    let finish : List (Event K) := [.glGenerateMipmap, .stbi_image_free, .glBindTexture 0]
    if img.channels = 3 then
      (true, genName, start ++ [.glTexImage2D "GL_RGB8" img.width img.height] ++ finish)
    else if img.channels = 4 then
      (true, genName, start ++ [.glTexImage2D "GL_RGBA8" img.width img.height] ++ finish)
    else
      (false, genName, start ++
        [.cout ("Not implemented to handle image with " ++ toString img.channels ++ " channels\n")])
  | none => (false, textureId, [.call "stbi_load"])

/-- The function `UDestroyTexture`: it calls `glGenTextures` on its by-value parameter;
`genName` is the name handed out. -/
def UDestroyTexture (_textureId : ℕ) (genName : ℕ) : List (Event K) :=
  [.glGenTextures genName]

/-- What the driver answers while `UCreateShaderProgram` runs: the names of the new
objects, the compile and link status of each stage and the text that
`glGetShaderInfoLog` / `glGetProgramInfoLog` write into the 512-byte buffer. -/
structure ShaderBuild where
  programName : ℕ
  vertexShaderName : ℕ
  fragmentShaderName : ℕ
  vertexCompiled : Bool
  vertexInfoLog : String
  fragmentCompiled : Bool
  fragmentInfoLog : String
  linked : Bool
  programInfoLog : String
deriving DecidableEq, Repr

/-- The function `UCreateShaderProgram`.  Result: return value, `programId` on exit
(written before any check), effects. -/
def UCreateShaderProgram (vtxShaderSource fragShaderSource : String) (b : ShaderBuild) :
    Bool × ℕ × List (Event K) :=
  let programId := b.programName
  let created : List (Event K) :=
    [.glCreateProgram programId, .glCreateShader b.vertexShaderName,
     .glCreateShader b.fragmentShaderName,
     .glShaderSource b.vertexShaderName vtxShaderSource,
     .glShaderSource b.fragmentShaderName fragShaderSource,
     .glCompileShader b.vertexShaderName]
  if !b.vertexCompiled then
    (false, programId, created ++
      [.cout ("ERROR::SHADER::VERTEX::COMPILATION_FAILED\n" ++ b.vertexInfoLog ++ "\n")])
  else
    let compiledVertex := created ++ [.glCompileShader b.fragmentShaderName]
    if !b.fragmentCompiled then
      (false, programId, compiledVertex ++
        [.cout ("ERROR::SHADER::FRAGMENT::COMPILATION_FAILED\n" ++ b.fragmentInfoLog ++ "\n")])
    else
      let linking := compiledVertex ++
        [.glAttachShader programId b.vertexShaderName,
         .glAttachShader programId b.fragmentShaderName, .glLinkProgram programId]
      if !b.linked then
        (false, programId, linking ++
          [.cout ("ERROR::SHADER::PROGRAM::LINKING_FAILED\n" ++ b.programInfoLog ++ "\n")])
      else (true, programId, linking ++ [.glUseProgram programId])

/-- The function `UDestroyShaderProgram`. -/
def UDestroyShaderProgram (programId : ℕ) : List (Event K) :=
  [.glDeleteProgram programId]

/-- The uniform uploads of the loop "Draw Lights" of `URender`, light `i` (from 0) using
the names with suffix `i + 1`. -/
def lightUniforms (program : ℕ) : ℕ → List (GLLight K) → List (Event K)
  | _, [] => []
  | i, light :: rest =>
    [.glUniform3f program ("lightColor" ++ toString (i + 1)) light.lightColor,
     .glUniform3f program ("lightPos" ++ toString (i + 1)) light.lightPosition,
     .glUniform1f program ("lightIntensity" ++ toString (i + 1)) light.lightIntensity]
    ++ lightUniforms program (i + 1) rest

/-- The loop "Draw lamps" of `URender`. -/
def drawLamps (view projection : Mat4 K) (nVertices : ℕ) : List (GLLight K) → List (Event K)
  | [] => []
  | light :: rest =>
    [.glUseProgram light.shaderProgram,
     .glUniformMatrix4fv light.shaderProgram "model"
       ((translate light.lightPosition).mul (scale light.lightScale)),
     .glUniformMatrix4fv light.shaderProgram "view" view,
     .glUniformMatrix4fv light.shaderProgram "projection" projection,
     .glDrawArrays 0 nVertices]
    ++ drawLamps view projection nVertices rest

/-- The function `URender`: the orbit update of the lights, then the draw of the pyramid
and of one lamp per light. -/
def URender (T : Libm K) (C : CameraApi K Cam) (app : App K Cam) :
    App K Cam × List (Event K) :=
  let app := { app with
    gSceneLights := orbitStep T app.gIsLampOrbiting app.gDeltaTime app.gSceneLights }
  let rotation := rotate T (83 / 10) ⟨0, 1, 0⟩
  let model := ((translate app.pyramidPosition).mul rotation).mul (scale app.pyramidScale)
  let view := C.GetViewMatrix app.gCamera
  let projection := perspective T (radians T (C.Zoom app.gCamera))
    ((WINDOW_WIDTH : K) / (WINDOW_HEIGHT : K)) (1 / 10) 100
  (app,
   [.call "glEnable", .call "glClearColor", .call "glClear",
    .glBindVertexArray app.gMesh.vao, .glUseProgram app.shaderProgramId,
    .glUniformMatrix4fv app.shaderProgramId "model" model,
    .glUniformMatrix4fv app.shaderProgramId "view" view,
    .glUniformMatrix4fv app.shaderProgramId "projection" projection]
   ++ lightUniforms app.shaderProgramId 0 app.gSceneLights
   ++ [.glUniform3f app.shaderProgramId "viewPosition" (C.Position app.gCamera),
       .glUniform2fv app.shaderProgramId "uvScale" app.gUVScale,
       .call "glActiveTexture", .glBindTexture app.gTextureId,
       .glDrawArrays 0 app.gMesh.nVertices]
   ++ drawLamps view projection app.gMesh.nVertices app.gSceneLights
   ++ [.glBindVertexArray 0, .glUseProgram 0, .glfwSwapBuffers])

/-- An event that GLFW delivers from `glfwPollEvents`: one of the three registered
callbacks, or the request to close the window. -/
inductive WindowEvent (K : Type) where
  | framebufferSize (width height : ℤ)
  | cursorPos (xpos ypos : K)
  | scroll (xoffset yoffset : K)
  | close
deriving DecidableEq

/-- The call `glfwPollEvents`: each pending event runs its callback. -/
def glfwPollEvents (C : CameraApi K Cam) :
    List (WindowEvent K) → App K Cam → App K Cam × List (Event K)
  | [], app => (app, [])
  | .framebufferSize width height :: rest, app =>
    let r := glfwPollEvents C rest app
    (r.1, UResizeWindow width height ++ r.2)
  | .cursorPos xpos ypos :: rest, app =>
    glfwPollEvents C rest (UMousePositionCallback C xpos ypos app)
  | .scroll xoffset yoffset :: rest, app =>
    glfwPollEvents C rest (UMouseScrollCallback C xoffset yoffset app)
  | .close :: rest, app =>
    glfwPollEvents C rest { app with windowShouldClose := true }

/-- What the outside world supplies to one pass of the render loop: the reading of
`glfwGetTime`, the state of the keys and the events pending at `glfwPollEvents`. -/
structure FrameInput (K : Type) where
  time : K
  keys : Keys
  events : List (WindowEvent K)

/-- The first three statements of the loop body of `main`: `currentFrame` is the clock
reading converted to `float`, `gDeltaTime` the `float` difference to `gLastFrame`. -/
def frameClock (time : K) (app : App K Cam) : App K Cam :=
  let currentFrame := toFloat time
  { app with gDeltaTime := toFloat (currentFrame - app.gLastFrame), gLastFrame := currentFrame }

/-- One pass of the loop body of `main`. -/
def frame (T : Libm K) (C : CameraApi K Cam) (f : FrameInput K) (app : App K Cam) :
    App K Cam × List (Event K) :=
  let app := frameClock f.time app
  let app := UProcessInput C f.keys app
  let r := URender T C app
  let p := glfwPollEvents C f.events r.1
  (p.1, r.2 ++ p.2)

/-- The render loop of `main`, `while (!glfwWindowShouldClose(gWindow))`, run on the
inputs of the successive passes.  The third component tells whether the loop was
left; it is `false` when the inputs end with the window still open. -/
def renderLoop (T : Libm K) (C : CameraApi K Cam) :
    List (FrameInput K) → App K Cam → App K Cam × List (Event K) × Bool
  | [], app => (app, [], app.windowShouldClose)
  | f :: rest, app =>
    if app.windowShouldClose then (app, [], true)
    else
      let r := frame T C f app
      let l := renderLoop T C rest r.1
      (l.1, r.2 ++ l.2.1, l.2.2)

/-- The answers of GLFW, GLEW, the GL driver and stb_image during start-up and
shutdown of `main`. -/
structure Driver where
  windowCreated : Bool
  glewOk : Bool
  glewErrorString : String
  meshVao : ℕ
  meshVbo : ℕ
  pyramidBuild : ShaderBuild
  lamp0Build : ShaderBuild
  lamp1Build : ShaderBuild
  image : Option Image
  textureName : ℕ
  shutdownTextureName : ℕ
deriving DecidableEq, Repr

/-- The value `EXIT_FAILURE`. -/
def EXIT_FAILURE : ℕ := 1

/-- The value `EXIT_SUCCESS`. -/
def EXIT_SUCCESS : ℕ := 0

/-- Assignment `gSceneLights[i].shaderProgram = programId`. -/
def setShaderProgram (programId : ℕ) : ℕ → List (GLLight K) → List (GLLight K)
  | _, [] => []
  | 0, light :: rest => { light with shaderProgram := programId } :: rest
  | i + 1, light :: rest => light :: setShaderProgram programId i rest

/-- The loop at the end of `main` that destroys the shader program of every light. -/
def destroyLightPrograms : List (GLLight K) → List (Event K)
  | [] => []
  | light :: rest => UDestroyShaderProgram light.shaderProgram ++ destroyLightPrograms rest

/-- Outcome of `main`: the exit status (`none` when the inputs end while the render loop
is still running), everything the run did, and the globals at that point. -/
structure Run (K Cam : Type) where
  exitCode : Option ℕ
  events : List (Event K)
  app : App K Cam

/-- The function `main`. -/
def main (T : Libm K) (C : CameraApi K Cam) (d : Driver) (frames : List (FrameInput K)) :
    Run K Cam :=
  let app := initialApp C
  let init := UInitialize d.windowCreated d.glewOk d.glewErrorString
  if !init.1 then ⟨some EXIT_FAILURE, init.2, app⟩
  else
    let mesh := UCreateMesh d.meshVao d.meshVbo
    let app := { app with gMesh := mesh.1 }
    let ev := init.2 ++ mesh.2
    let p0 := UCreateShaderProgram "vertexShaderSource" "fragmentShaderSource" d.pyramidBuild
    let app := { app with shaderProgramId := p0.2.1 }
    let ev := ev ++ p0.2.2
    if !p0.1 then ⟨some EXIT_FAILURE, ev, app⟩
    else
      let p1 := UCreateShaderProgram "lampVertexShaderSource" "lampFragmentShaderSource"
        d.lamp0Build
      let app := { app with gSceneLights := setShaderProgram p1.2.1 0 app.gSceneLights }
      let ev := ev ++ p1.2.2
      if !p1.1 then ⟨some EXIT_FAILURE, ev, app⟩
      else
        let p2 := UCreateShaderProgram "lampVertexShaderSource" "lampFragmentShaderSource"
          d.lamp1Build
        let app := { app with gSceneLights := setShaderProgram p2.2.1 1 app.gSceneLights }
        let ev := ev ++ p2.2.2
        if !p2.1 then ⟨some EXIT_FAILURE, ev, app⟩
        else
          let tex := UCreateTexture d.image d.textureName app.gTextureId
          let app := { app with gTextureId := tex.2.1 }
          let ev := ev ++ tex.2.2
          if !tex.1 then
            ⟨some EXIT_FAILURE, ev ++ [.cout "Failed to load texture brick.jpg\n"], app⟩
          else
            let ev := ev ++ [.glUseProgram app.shaderProgramId,
              .glUniform1i app.shaderProgramId "uTexture" 0, .call "glClearColor"]
            let loop := renderLoop T C frames app
            let app := loop.1
            let ev := ev ++ loop.2.1
            if !loop.2.2 then ⟨none, ev, app⟩
            else
              ⟨some EXIT_SUCCESS,
               ev ++ UDestroyMesh app.gMesh
                 ++ UDestroyTexture app.gTextureId d.shutdownTextureName
                 ++ UDestroyShaderProgram app.shaderProgramId
                 ++ destroyLightPrograms app.gSceneLights,
               app⟩

end Program

/-! ## The fragment shader of the pyramid -/

/-- The GLSL built-ins that need more than field arithmetic. -/
structure Glsl (K : Type) where
  sqrt : K → K
  pow : K → K → K

section Shader

variable {K : Type} [LinearOrderedField K]

/-- GLSL `dot` on `vec3`. -/
def dot (a b : Vec3 K) : K := a.x * b.x + a.y * b.y + a.z * b.z

/-- GLSL `vec3 + vec3`. -/
def Vec3.add (a b : Vec3 K) : Vec3 K := ⟨a.x + b.x, a.y + b.y, a.z + b.z⟩

/-- GLSL `vec3 - vec3`. -/
def Vec3.sub (a b : Vec3 K) : Vec3 K := ⟨a.x - b.x, a.y - b.y, a.z - b.z⟩

/-- GLSL `-vec3`. -/
def Vec3.neg (a : Vec3 K) : Vec3 K := ⟨-a.x, -a.y, -a.z⟩

/-- GLSL `float * vec3`. -/
def Vec3.smul (k : K) (a : Vec3 K) : Vec3 K := ⟨k * a.x, k * a.y, k * a.z⟩

/-- GLSL `vec3 * vec3`, componentwise. -/
def Vec3.mul (a b : Vec3 K) : Vec3 K := ⟨a.x * b.x, a.y * b.y, a.z * b.z⟩

/-- GLSL `normalize`: the vector divided by its length. -/
def normalize (G : Glsl K) (v : Vec3 K) : Vec3 K :=
  let length := G.sqrt (dot v v)
  ⟨v.x / length, v.y / length, v.z / length⟩

/-- GLSL `reflect(I, N)`, that is `I - 2 * dot(N, I) * N`. -/
def reflect (I N : Vec3 K) : Vec3 K := I.sub (Vec3.smul (2 * dot N I) N)

/-- The local variables of `CalcPointLight` that enter its result. -/
structure PhongTerms (K : Type) where
  ambient : Vec3 K
  impact : K
  diffuse : Vec3 K
  specular : Vec3 K
  phong : Vec3 K

/-- The body of the function `CalcPointLight` of `fragmentShaderSource`; `vertexNormal`
is the shader input of that name, which the function reads as a global. -/
def CalcPointLightTerms (G : Glsl K) (vertexNormal : Vec3 K) (lightPos lightColor : Vec3 K)
    (lightIntensity : K) (vertexFragmentPos viewPosition : Vec3 K) : PhongTerms K :=
  let ambient := Vec3.smul lightIntensity lightColor
  let norm := normalize G vertexNormal
  let lightDirection := normalize G (lightPos.sub vertexFragmentPos)
  let impact := max (dot norm lightDirection) (2 / 10)
  let diffuse := Vec3.smul impact lightColor
  let specularIntensity : K := 0
  let highlightSize : K := 0
  let viewDir := normalize G (viewPosition.sub vertexFragmentPos)
  let reflectDir := reflect lightDirection.neg norm
  let specularComponent := G.pow (max (dot viewDir reflectDir) 0) highlightSize
  let specular := Vec3.smul (specularIntensity * specularComponent) lightColor
  let phong := (ambient.add diffuse).add specular
  ⟨ambient, impact, diffuse, specular, phong⟩

/-- The function `CalcPointLight`: it returns `phong`. -/
def CalcPointLight (G : Glsl K) (vertexNormal : Vec3 K) (lightPos lightColor : Vec3 K)
    (lightIntensity : K) (vertexFragmentPos viewPosition : Vec3 K) : Vec3 K :=
  (CalcPointLightTerms G vertexNormal lightPos lightColor lightIntensity vertexFragmentPos
    viewPosition).phong

end Shader

/-! ## Cameras used to observe the calls the program makes -/

/-- A camera that keeps, newest first, the offsets it receives in `ProcessMouseMovement`
and ignores every other call. -/
def recordingCamera (K : Type) [Zero K] : CameraApi K (List (K × K)) :=
  { make := fun _ => []
    ProcessKeyboard := fun _ _ cam => cam
    ProcessMouseMovement := fun xoffset yoffset cam => (xoffset, yoffset) :: cam
    ProcessMouseScroll := fun _ cam => cam
    GetViewMatrix := fun _ => ⟨⟨0, 0, 0, 0⟩, ⟨0, 0, 0, 0⟩, ⟨0, 0, 0, 0⟩, ⟨0, 0, 0, 0⟩⟩
    Zoom := fun _ => 0
    Position := fun _ => ⟨0, 0, 0⟩ }

/-- The keyboard with no key pressed. -/
def noKeys : Keys := ⟨false, false, false, false, false, false, false, false, false⟩

/-- Square of the distance of a light to the world Y axis. -/
def distSqToYAxis {K : Type} [Field K] (light : GLLight K) : K :=
  light.lightPosition.x ^ 2 + light.lightPosition.z ^ 2

/-- Height of a light over the plane y = 0. -/
def height {K : Type} (light : GLLight K) : K := light.lightPosition.y

/-- Successive calls of `URender`, the global `gDeltaTime` holding the given values in
turn. -/
def renderWith {K Cam : Type} [LinearOrderedField K] (T : Libm K) (C : CameraApi K Cam) (app : App K Cam)
    (deltaTimes : List K) : App K Cam :=
  deltaTimes.foldl (fun a dt => (URender T C { a with gDeltaTime := dt }).1) app

/-- The texts written to `std::cout` and `std::cerr`, in order. -/
def printed {K : Type} : List (Event K) → List String
  | [] => []
  | .cout text :: rest => text :: printed rest
  | .cerr text :: rest => text :: printed rest
  | _ :: rest => printed rest

/-- Whether an event belongs to the drawing of a frame: a draw call or the buffer swap
that ends `URender`. -/
def Event.rendersFrame {K : Type} : Event K → Bool
  | .glDrawArrays _ _ => true
  | .glfwSwapBuffers => true
  | _ => false

/-- The matrices uploaded to a uniform named `projection`, in order. -/
def projectionUploads {K : Type} : List (Event K) → List (Mat4 K)
  | [] => []
  | .glUniformMatrix4fv _ name m :: rest =>
    if name = "projection" then m :: projectionUploads rest else projectionUploads rest
  | _ :: rest => projectionUploads rest

/-- Width and height of the viewport after the events, from the size before them: each
`glViewport` call sets it. -/
def viewportAfter {K : Type} : ℤ × ℤ → List (Event K) → ℤ × ℤ
  | size, [] => size
  | _, .glViewport _ _ width height :: rest => viewportAfter (width, height) rest
  | size, _ :: rest => viewportAfter size rest

/-- A camera at rest whose field of view is 45 degrees. -/
def fixedCamera (K : Type) [Field K] : CameraApi K Unit :=
  { make := fun _ => ()
    ProcessKeyboard := fun _ _ cam => cam
    ProcessMouseMovement := fun _ _ cam => cam
    ProcessMouseScroll := fun _ cam => cam
    GetViewMatrix := fun _ => ⟨⟨1, 0, 0, 0⟩, ⟨0, 1, 0, 0⟩, ⟨0, 0, 1, 0⟩, ⟨0, 0, 0, 1⟩⟩
    Zoom := fun _ => 45
    Position := fun _ => ⟨0, 1 / 2, 7⟩ }

/-- The GPU objects that exist: the names of the vertex arrays, buffers, textures,
programs and shaders that have been created and not deleted. -/
structure GpuObjects where
  vertexArrays : List ℕ
  buffers : List ℕ
  textures : List ℕ
  programs : List ℕ
  shaders : List ℕ
deriving DecidableEq, Repr

/-- Effect of one event on the GPU objects: a `glGen...` or `glCreate...` call adds the
name it hands out, a `glDelete...` call removes the name it is given. -/
def GpuObjects.after {K : Type} (s : GpuObjects) : Event K → GpuObjects
  | .glGenVertexArrays name => { s with vertexArrays := s.vertexArrays ++ [name] }
  | .glGenBuffers name => { s with buffers := s.buffers ++ [name] }
  | .glGenTextures name => { s with textures := s.textures ++ [name] }
  | .glCreateProgram name => { s with programs := s.programs ++ [name] }
  | .glCreateShader name => { s with shaders := s.shaders ++ [name] }
  | .glDeleteVertexArrays name => { s with vertexArrays := s.vertexArrays.erase name }
  | .glDeleteBuffers name => { s with buffers := s.buffers.erase name }
  | .glDeleteTextures name => { s with textures := s.textures.erase name }
  | .glDeleteProgram name => { s with programs := s.programs.erase name }
  | .glDeleteShader name => { s with shaders := s.shaders.erase name }
  | _ => s

/-- The GPU objects that exist after a run, none existing before it. -/
def liveObjects {K : Type} (events : List (Event K)) : GpuObjects :=
  events.foldl GpuObjects.after ⟨[], [], [], [], []⟩

/-- Answers of the libraries for a start-up without failure: every kind of object is
numbered from 1, every shader compiles, every program links, and the image has 3
channels. -/
def okDriver : Driver :=
  { windowCreated := true
    glewOk := true
    glewErrorString := ""
    meshVao := 1
    meshVbo := 1
    pyramidBuild := ⟨1, 1, 2, true, "", true, "", true, ""⟩
    lamp0Build := ⟨2, 3, 4, true, "", true, "", true, ""⟩
    lamp1Build := ⟨3, 5, 6, true, "", true, "", true, ""⟩
    image := some ⟨512, 512, 3⟩
    textureName := 1
    shutdownTextureName := 2 }

/-! ## Rounding lemmas -/

section RoundingLemmas

variable {K : Type} [LinearOrderedField K] [FloorRing K]

theorem log_two_eq (a : K) (e : ℤ) (h1 : (2 : K) ^ e ≤ a) (h2 : a < (2 : K) ^ (e + 1)) :
    Int.log 2 a = e := by
  have ha : 0 < a := lt_of_lt_of_le (by positivity) h1
  have hb : 1 < 2 := by norm_num
  have l1 : e ≤ Int.log 2 a := (Int.zpow_le_iff_le_log hb ha).1 (by exact_mod_cast h1)
  have l2 : Int.log 2 a < e + 1 := (Int.lt_zpow_iff_log_lt hb ha).1 (by exact_mod_cast h2)
  omega

theorem roundHalfEven_of (q : K) (n : ℤ) (h1 : (n : K) ≤ q) (h2 : q < n + 1 / 2) :
    roundHalfEven q = n := by
  have hf : ⌊q⌋ = n := Int.floor_eq_iff.2 ⟨h1, by linarith⟩
  unfold roundHalfEven
  rw [hf, if_pos (by linarith)]

/-- The value of `roundBinary` at a number that lies in the binade `2 ^ e ≤ |q| < 2 ^ (e + 1)`
and less than half a spacing above the multiple `n` of the spacing. -/
theorem roundBinary_of (p : ℕ) (emin : ℤ) (q : K) (e n : ℤ)
    (h1 : (2 : K) ^ e ≤ |q|) (h2 : |q| < (2 : K) ^ (e + 1))
    (h3 : (n : K) * (2 : K) ^ (max e emin - ((p : ℤ) - 1)) ≤ q)
    (h4 : q < ((n : K) + 1 / 2) * (2 : K) ^ (max e emin - ((p : ℤ) - 1))) :
    roundBinary p emin q = n * (2 : K) ^ (max e emin - ((p : ℤ) - 1)) := by
  have hq : q ≠ 0 := by
    intro h
    rw [h, abs_zero] at h1
    exact absurd h1 (not_le.2 (by positivity))
  have hu : quantum p emin q = (2 : K) ^ (max e emin - ((p : ℤ) - 1)) := by
    unfold quantum
    rw [log_two_eq _ e h1 h2]
  have hpos : (0 : K) < (2 : K) ^ (max e emin - ((p : ℤ) - 1)) := by positivity
  unfold roundBinary
  rw [if_neg hq, hu, roundHalfEven_of _ n ((le_div_iff₀ hpos).2 h3) ((div_lt_iff₀ hpos).2 h4)]

theorem toFloat_zero : toFloat (0 : K) = 0 := by
  simp [toFloat, roundBinary]

theorem toDouble_zero : toDouble (0 : K) = 0 := by
  simp [toDouble, roundBinary]

theorem toFloat_300 : toFloat (300 : K) = 300 := by
  have h := roundBinary_of 24 (-126) (300 : K) 8 9830400
    (by norm_num [abs_of_pos]) (by norm_num [abs_of_pos]) (by norm_num) (by norm_num)
  unfold toFloat
  rw [h]
  norm_num

theorem toFloat_400 : toFloat (400 : K) = 400 := by
  have h := roundBinary_of 24 (-126) (400 : K) 8 13107200
    (by norm_num [abs_of_pos]) (by norm_num [abs_of_pos]) (by norm_num) (by norm_num)
  unfold toFloat
  rw [h]
  norm_num

theorem toFloat_test_position : toFloat (400 + 1 / 2 ^ 20 : K) = 400 := by
  have h := roundBinary_of 24 (-126) (400 + 1 / 2 ^ 20 : K) 8 13107200
    (by norm_num [abs_of_pos]) (by norm_num [abs_of_pos]) (by norm_num) (by norm_num)
  unfold toFloat
  rw [h]
  norm_num

theorem toDouble_test_position : toDouble (400 + 1 / 2 ^ 20 : K) = 400 + 1 / 2 ^ 20 := by
  have h := roundBinary_of 53 (-1022) (400 + 1 / 2 ^ 20 : K) 8 (400 * 2 ^ 44 + 2 ^ 24)
    (by norm_num [abs_of_pos]) (by norm_num [abs_of_pos]) (by norm_num) (by norm_num)
  unfold toDouble
  rw [h]
  norm_num

theorem toDouble_residue : toDouble (1 / 2 ^ 20 : K) = 1 / 2 ^ 20 := by
  have h := roundBinary_of 53 (-1022) (1 / 2 ^ 20 : K) (-20) (2 ^ 52)
    (by norm_num [abs_of_pos]) (by norm_num [abs_of_pos]) (by norm_num) (by norm_num)
  unfold toDouble
  rw [h]
  norm_num

theorem toFloat_residue : toFloat (1 / 2 ^ 20 : K) = 1 / 2 ^ 20 := by
  have h := roundBinary_of 24 (-126) (1 / 2 ^ 20 : K) (-20) (2 ^ 23)
    (by norm_num [abs_of_pos]) (by norm_num [abs_of_pos]) (by norm_num) (by norm_num)
  unfold toFloat
  rw [h]
  norm_num

theorem roundHalfEven_intCast (m : ℤ) : roundHalfEven (m : K) = m :=
  roundHalfEven_of _ m le_rfl (by linarith)

/-- Every whole number of magnitude below 2^24 is a `float` value. -/
theorem isFloat_intCast (n : ℤ) (h : |n| < 2 ^ 24) : IsFloat (n : K) := by
  have habs : |(n : K)| = ((n.natAbs : ℕ) : K) := by
    rw [← Int.cast_abs, Int.abs_eq_natAbs, Int.cast_natCast]
  have hlt : n.natAbs < 2 ^ 24 := by
    have := Int.abs_eq_natAbs n
    omega
  refine ⟨?_, ?_⟩
  · by_cases hn : n = 0
    · subst hn
      simpa using (toFloat_zero : toFloat (0 : K) = 0)
    · have hne : n.natAbs ≠ 0 := by simpa using hn
      have hk : Nat.log 2 n.natAbs < 24 := Nat.log_lt_of_lt_pow hne hlt
      obtain ⟨j, hj⟩ : ∃ j : ℕ, Nat.log 2 n.natAbs + j = 23 :=
        ⟨23 - Nat.log 2 n.natAbs, by omega⟩
      have hq : quantum 24 (-126) (n : K) = ((2 : K) ^ j)⁻¹ := by
        unfold quantum
        rw [habs, Int.log_natCast]
        have e : max (Nat.log 2 n.natAbs : ℤ) (-126) - (((24 : ℕ) : ℤ) - 1) = -(j : ℤ) := by
          have : max (Nat.log 2 n.natAbs : ℤ) (-126) = (Nat.log 2 n.natAbs : ℤ) := by
            apply max_eq_left
            omega
          rw [this]
          push_cast
          omega
        rw [e, zpow_neg, zpow_natCast]
      have hdiv : (n : K) / ((2 : K) ^ j)⁻¹ = ((n * 2 ^ j : ℤ) : K) := by
        rw [div_inv_eq_mul]
        push_cast
        ring
      have hcast : (n : K) ≠ 0 := by exact_mod_cast hn
      unfold toFloat roundBinary
      rw [if_neg hcast, hq, hdiv, roundHalfEven_intCast]
      push_cast
      field_simp
  · rw [habs]
    calc ((n.natAbs : ℕ) : K) < ((2 ^ 24 : ℕ) : K) := by exact_mod_cast hlt
      _ ≤ (2 : K) ^ (128 : ℕ) := by norm_num

end RoundingLemmas

/-! ## The mouse callback -/

/-- C1, as the code has it: whatever `gLastX` and `gLastY` held, the first call of
`UMousePositionCallback` (with `gFirstMouse` set) at a cursor position whose two
coordinates are `float` values hands the offsets (0, 0) to `ProcessMouseMovement` and
leaves `gLastX = xpos`, `gLastY = ypos`, `gFirstMouse = false`. -/
theorem UMousePositionCallback_first_call {K Cam : Type} [LinearOrderedField K] [FloorRing K]
    (C : CameraApi K Cam) (xpos ypos : K) (app : App K Cam)
    (hfirst : app.gFirstMouse = true) (hx : IsFloat xpos) (hy : IsFloat ypos) :
    (UMousePositionCallback C xpos ypos app).gCamera
        = C.ProcessMouseMovement 0 0 app.gCamera
      ∧ (UMousePositionCallback C xpos ypos app).gLastX = xpos
      ∧ (UMousePositionCallback C xpos ypos app).gLastY = ypos
      ∧ (UMousePositionCallback C xpos ypos app).gFirstMouse = false := by
  simp [UMousePositionCallback, hfirst, hx.1, hy.1, toFloat_zero, toDouble_zero]

/-- C1, instance: the first callback at the window centre (400, 300), from the initial
globals. -/
theorem UMousePositionCallback_first_call_witness :
    (UMousePositionCallback (recordingCamera ℚ) 400 300 (initialApp (recordingCamera ℚ))).gCamera
        = (recordingCamera ℚ).ProcessMouseMovement 0 0 (initialApp (recordingCamera ℚ)).gCamera
      ∧ (UMousePositionCallback (recordingCamera ℚ) 400 300
          (initialApp (recordingCamera ℚ))).gLastX = 400
      ∧ (UMousePositionCallback (recordingCamera ℚ) 400 300
          (initialApp (recordingCamera ℚ))).gLastY = 300
      ∧ (UMousePositionCallback (recordingCamera ℚ) 400 300
          (initialApp (recordingCamera ℚ))).gFirstMouse = false :=
  UMousePositionCallback_first_call (recordingCamera ℚ) 400 300 (initialApp (recordingCamera ℚ))
    rfl ⟨toFloat_400, by norm_num [abs_of_pos]⟩ ⟨toFloat_300, by norm_num [abs_of_pos]⟩

/-- C1 fails as stated: at the cursor position (400 + 2^-20, 300), a pair of `double`
values, the first callback stores `gLastX = 400` and hands the offsets (2^-20, 0), not
(0, 0), to `ProcessMouseMovement`. -/
theorem UMousePositionCallback_first_call_inexact :
    toDouble (400 + 1 / 2 ^ 20 : ℚ) = 400 + 1 / 2 ^ 20
      ∧ (UMousePositionCallback (recordingCamera ℚ) (400 + 1 / 2 ^ 20) 300
        (initialApp (recordingCamera ℚ))).gCamera = [(1 / 2 ^ 20, 0)]
      ∧ (UMousePositionCallback (recordingCamera ℚ) (400 + 1 / 2 ^ 20) 300
        (initialApp (recordingCamera ℚ))).gCamera
          ≠ (recordingCamera ℚ).ProcessMouseMovement 0 0 (initialApp (recordingCamera ℚ)).gCamera
      ∧ (UMousePositionCallback (recordingCamera ℚ) (400 + 1 / 2 ^ 20) 300
        (initialApp (recordingCamera ℚ))).gLastX = 400
      ∧ (400 : ℚ) ≠ 400 + 1 / 2 ^ 20 := by
  have h : (UMousePositionCallback (recordingCamera ℚ) (400 + 1 / 2 ^ 20) 300
        (initialApp (recordingCamera ℚ))).gCamera = [(1 / 2 ^ 20, 0)] := by
    have e1 : (400 + 1 / 2 ^ 20 - 400 : ℚ) = 1 / 2 ^ 20 := by norm_num
    simp only [UMousePositionCallback, initialApp, recordingCamera, if_true,
      toFloat_test_position, toFloat_300, e1, toDouble_residue, toFloat_residue, sub_self,
      toDouble_zero, toFloat_zero]
  refine ⟨toDouble_test_position, h, ?_, ?_, by norm_num⟩
  · rw [h]
    simp [recordingCamera, initialApp]
  · simp only [UMousePositionCallback, toFloat_test_position]

/-! ## The orbit flag -/

section Input

variable {K Cam : Type}

@[simp]
theorem moveOnKey_gIsLampOrbiting (C : CameraApi K Cam) (pressed : Bool)
    (direction : Camera_Movement) (app : App K Cam) :
    (moveOnKey C pressed direction app).gIsLampOrbiting = app.gIsLampOrbiting := by
  cases pressed <;> rfl

@[simp]
theorem moveOnKey_gSceneLights (C : CameraApi K Cam) (pressed : Bool)
    (direction : Camera_Movement) (app : App K Cam) :
    (moveOnKey C pressed direction app).gSceneLights = app.gSceneLights := by
  cases pressed <;> rfl

@[simp]
theorem moveOnKey_gDeltaTime (C : CameraApi K Cam) (pressed : Bool)
    (direction : Camera_Movement) (app : App K Cam) :
    (moveOnKey C pressed direction app).gDeltaTime = app.gDeltaTime := by
  cases pressed <;> rfl

@[simp]
theorem moveOnKey_gLastFrame (C : CameraApi K Cam) (pressed : Bool)
    (direction : Camera_Movement) (app : App K Cam) :
    (moveOnKey C pressed direction app).gLastFrame = app.gLastFrame := by
  cases pressed <;> rfl

theorem moveOnKey_gCamera (C : CameraApi K Cam) (pressed : Bool)
    (direction : Camera_Movement) (app : App K Cam) :
    (moveOnKey C pressed direction app).gCamera
      = if pressed then C.ProcessKeyboard direction app.gDeltaTime app.gCamera
        else app.gCamera := by
  cases pressed <;> rfl

/-- The orbit flag after `UProcessInput`, from the flag before and the keys L and K. -/
theorem UProcessInput_gIsLampOrbiting (C : CameraApi K Cam) (keys : Keys) (app : App K Cam) :
    (UProcessInput C keys app).gIsLampOrbiting
      = if keys.l && !app.gIsLampOrbiting then true
        else if keys.k && app.gIsLampOrbiting then false else app.gIsLampOrbiting := by
  unfold UProcessInput
  dsimp only
  simp only [moveOnKey_gIsLampOrbiting]
  cases keys.escape <;> cases keys.l <;> cases keys.k <;> cases h : app.gIsLampOrbiting <;>
    simp [h]

theorem UProcessInput_gSceneLights (C : CameraApi K Cam) (keys : Keys) (app : App K Cam) :
    (UProcessInput C keys app).gSceneLights = app.gSceneLights := by
  unfold UProcessInput
  dsimp only
  split_ifs <;> simp only [moveOnKey_gSceneLights]

theorem UProcessInput_gDeltaTime (C : CameraApi K Cam) (keys : Keys) (app : App K Cam) :
    (UProcessInput C keys app).gDeltaTime = app.gDeltaTime := by
  unfold UProcessInput
  dsimp only
  split_ifs <;> simp only [moveOnKey_gDeltaTime]

theorem UProcessInput_gLastFrame (C : CameraApi K Cam) (keys : Keys) (app : App K Cam) :
    (UProcessInput C keys app).gLastFrame = app.gLastFrame := by
  unfold UProcessInput
  dsimp only
  split_ifs <;> simp only [moveOnKey_gLastFrame]

/-- The camera after `UProcessInput`: every pressed movement key, in the order W, S, A, D,
E, Q, has called `ProcessKeyboard` with `gDeltaTime`. -/
theorem UProcessInput_gCamera (C : CameraApi K Cam) (keys : Keys) (app : App K Cam) :
    (UProcessInput C keys app).gCamera
      = [(keys.w, Camera_Movement.FORWARD), (keys.s, Camera_Movement.BACKWARD),
          (keys.a, Camera_Movement.LEFT), (keys.d, Camera_Movement.RIGHT),
          (keys.e, Camera_Movement.UP), (keys.q, Camera_Movement.DOWN)].foldl
          (fun cam key => if key.1 then C.ProcessKeyboard key.2 app.gDeltaTime cam else cam)
          app.gCamera := by
  unfold UProcessInput
  dsimp only
  split_ifs <;>
    simp only [moveOnKey_gCamera, moveOnKey_gDeltaTime, List.foldl_cons, List.foldl_nil]

end Input

/-- C2, as the code has it: when L and K are not both pressed, `UProcessInput` leaves the
orbit flag set if L is pressed, cleared if K is pressed and unchanged if neither is, so
that a second run with the same keys changes nothing. -/
theorem UProcessInput_orbit_flag {K Cam : Type} (C : CameraApi K Cam) (keys : Keys) (app : App K Cam)
    (hkeys : ¬ (keys.l = true ∧ keys.k = true)) :
    (keys.l = true → (UProcessInput C keys app).gIsLampOrbiting = true)
      ∧ (keys.k = true → (UProcessInput C keys app).gIsLampOrbiting = false)
      ∧ (keys.l = false → keys.k = false →
          (UProcessInput C keys app).gIsLampOrbiting = app.gIsLampOrbiting)
      ∧ (UProcessInput C keys (UProcessInput C keys app)).gIsLampOrbiting
          = (UProcessInput C keys app).gIsLampOrbiting := by
  simp only [UProcessInput_gIsLampOrbiting]
  cases hl : keys.l <;> cases hk : keys.k <;> cases h : app.gIsLampOrbiting <;> simp_all

/-- C2, instance: only L held down, from the initial globals. -/
theorem UProcessInput_orbit_flag_witness :
    (({ noKeys with l := true } : Keys).l = true →
        (UProcessInput (recordingCamera ℚ) { noKeys with l := true }
          (initialApp (recordingCamera ℚ))).gIsLampOrbiting = true)
      ∧ (({ noKeys with l := true } : Keys).k = true →
        (UProcessInput (recordingCamera ℚ) { noKeys with l := true }
          (initialApp (recordingCamera ℚ))).gIsLampOrbiting = false)
      ∧ (({ noKeys with l := true } : Keys).l = false →
          ({ noKeys with l := true } : Keys).k = false →
        (UProcessInput (recordingCamera ℚ) { noKeys with l := true }
          (initialApp (recordingCamera ℚ))).gIsLampOrbiting
            = (initialApp (recordingCamera ℚ)).gIsLampOrbiting)
      ∧ (UProcessInput (recordingCamera ℚ) { noKeys with l := true }
          (UProcessInput (recordingCamera ℚ) { noKeys with l := true }
            (initialApp (recordingCamera ℚ)))).gIsLampOrbiting
          = (UProcessInput (recordingCamera ℚ) { noKeys with l := true }
            (initialApp (recordingCamera ℚ))).gIsLampOrbiting :=
  UProcessInput_orbit_flag (recordingCamera ℚ) { noKeys with l := true }
    (initialApp (recordingCamera ℚ)) (by decide)

/-- C2 fails as stated: with L and K both held down, the first run of `UProcessInput`
from the initial globals clears the orbit flag and the second run sets it again. -/
theorem UProcessInput_both_keys_flip :
    (UProcessInput (recordingCamera ℚ) { noKeys with l := true, k := true }
        (initialApp (recordingCamera ℚ))).gIsLampOrbiting = false
      ∧ (UProcessInput (recordingCamera ℚ) { noKeys with l := true, k := true }
          (UProcessInput (recordingCamera ℚ) { noKeys with l := true, k := true }
            (initialApp (recordingCamera ℚ)))).gIsLampOrbiting = true := by
  simp [UProcessInput_gIsLampOrbiting, initialApp, noKeys]

/-! ## The orbit of the lights -/

section OrbitLemmas

variable {K Cam : Type} [LinearOrderedField K]

theorem URender_gSceneLights (T : Libm K) (C : CameraApi K Cam) (app : App K Cam) :
    (URender T C app).1.gSceneLights
      = orbitStep T app.gIsLampOrbiting app.gDeltaTime app.gSceneLights := rfl

theorem URender_gIsLampOrbiting (T : Libm K) (C : CameraApi K Cam) (app : App K Cam) :
    (URender T C app).1.gIsLampOrbiting = app.gIsLampOrbiting := rfl

theorem renderWith_gIsLampOrbiting (T : Libm K) (C : CameraApi K Cam) (deltaTimes : List K) :
    ∀ app : App K Cam, (renderWith T C app deltaTimes).gIsLampOrbiting = app.gIsLampOrbiting := by
  induction deltaTimes with
  | nil => intro app; rfl
  | cons dt rest ih =>
    intro app
    show (renderWith T C (URender T C { app with gDeltaTime := dt }).1 rest).gIsLampOrbiting = _
    rw [ih]
    rfl

/-- With the orbit flag cleared, any number of calls of `URender` returns the lights
it was given. -/
theorem renderWith_paused (T : Libm K) (C : CameraApi K Cam) (deltaTimes : List K) :
    ∀ app : App K Cam, app.gIsLampOrbiting = false →
      (renderWith T C app deltaTimes).gSceneLights = app.gSceneLights := by
  induction deltaTimes with
  | nil => intro app _; rfl
  | cons dt rest ih =>
    intro app h
    show (renderWith T C (URender T C { app with gDeltaTime := dt }).1 rest).gSceneLights = _
    rw [ih _ (by rw [URender_gIsLampOrbiting]; exact h), URender_gSceneLights]
    simp [orbitStep, h]

end OrbitLemmas

/-- One orbit update with real sine and cosine keeps the squared distance to the Y axis
and the height of a light. -/
theorem orbitLight_invariant (light : GLLight ℝ) (gDeltaTime : ℝ) :
    distSqToYAxis (orbitLight ⟨Real.cos, Real.sin, Real.tan, Real.sqrt, Real.pi⟩ gDeltaTime light)
        = distSqToYAxis light
      ∧ height (orbitLight ⟨Real.cos, Real.sin, Real.tan, Real.sqrt, Real.pi⟩ gDeltaTime light)
        = height light := by
  constructor
  · simp only [distSqToYAxis, orbitLight, rotate, glmNormalize, Mat4.mulVec, radians,
      mul_zero, mul_one, zero_add, add_zero, Real.sqrt_one, div_one]
    linear_combination (light.lightPosition.x ^ 2 + light.lightPosition.z ^ 2)
      * Real.cos_sq_add_sin_sq (45 * (Real.pi / 180) * gDeltaTime)
  · simp only [height, orbitLight, rotate, glmNormalize, Mat4.mulVec, radians,
      mul_zero, mul_one, zero_add, add_zero, Real.sqrt_one, div_one]
    ring

theorem orbitStep_invariant (flag : Bool) (gDeltaTime : ℝ) (lights : List (GLLight ℝ)) :
    (orbitStep ⟨Real.cos, Real.sin, Real.tan, Real.sqrt, Real.pi⟩ flag gDeltaTime lights).map distSqToYAxis
        = lights.map distSqToYAxis
      ∧ (orbitStep ⟨Real.cos, Real.sin, Real.tan, Real.sqrt, Real.pi⟩ flag gDeltaTime lights).map height
        = lights.map height := by
  cases flag
  · exact ⟨rfl, rfl⟩
  · simp only [orbitStep, if_true, List.map_map]
    constructor
    · exact List.map_congr_left (fun l _ => (orbitLight_invariant l gDeltaTime).1)
    · exact List.map_congr_left (fun l _ => (orbitLight_invariant l gDeltaTime).2)

/-- C3: with real sine and cosine, one orbit update of `URender` keeps each light at its
distance to the world Y axis (x'^2 + z'^2 = x^2 + z^2) and at its height (y' = y), for
every position and every delta time; and so does any number of calls of `URender`, with
whatever delta times. -/
theorem orbit_keeps_distance_to_axis {Cam : Type} (C : CameraApi ℝ Cam) :
    (∀ (light : GLLight ℝ) (gDeltaTime : ℝ),
        (orbitLight ⟨Real.cos, Real.sin, Real.tan, Real.sqrt, Real.pi⟩ gDeltaTime light).lightPosition.x ^ 2
          + (orbitLight ⟨Real.cos, Real.sin, Real.tan, Real.sqrt, Real.pi⟩ gDeltaTime light).lightPosition.z ^ 2
          = light.lightPosition.x ^ 2 + light.lightPosition.z ^ 2
        ∧ (orbitLight ⟨Real.cos, Real.sin, Real.tan, Real.sqrt, Real.pi⟩ gDeltaTime light).lightPosition.y
          = light.lightPosition.y)
      ∧ ∀ (app : App ℝ Cam) (deltaTimes : List ℝ),
        (renderWith ⟨Real.cos, Real.sin, Real.tan, Real.sqrt, Real.pi⟩ C app deltaTimes).gSceneLights.map
            distSqToYAxis = app.gSceneLights.map distSqToYAxis
          ∧ (renderWith ⟨Real.cos, Real.sin, Real.tan, Real.sqrt, Real.pi⟩ C app deltaTimes).gSceneLights.map
            height = app.gSceneLights.map height := by
  refine ⟨fun light dt => orbitLight_invariant light dt, ?_⟩
  intro app deltaTimes
  induction deltaTimes generalizing app with
  | nil => exact ⟨rfl, rfl⟩
  | cons dt rest ih =>
    have h := ih (URender ⟨Real.cos, Real.sin, Real.tan, Real.sqrt, Real.pi⟩ C { app with gDeltaTime := dt }).1
    have e := orbitStep_invariant app.gIsLampOrbiting dt app.gSceneLights
    rw [URender_gSceneLights] at h
    exact ⟨h.1.trans e.1, h.2.trans e.2⟩

/-- C4: while `gIsLampOrbiting` is false, any number of calls of `URender`, with whatever
delta times, leaves the vector of lights as it was (positions, colours, scales,
intensities and shader handles); once the flag is set again, the next call rotates
exactly those positions. -/
theorem orbit_pause_and_resume {K Cam : Type} [LinearOrderedField K] (T : Libm K) (C : CameraApi K Cam)
    (app : App K Cam) (deltaTimes : List K) (dt : K) (hoff : app.gIsLampOrbiting = false) :
    (renderWith T C app deltaTimes).gSceneLights = app.gSceneLights
      ∧ (URender T C { renderWith T C app deltaTimes with
            gIsLampOrbiting := true, gDeltaTime := dt }).1.gSceneLights
          = app.gSceneLights.map (orbitLight T dt) := by
  have h := renderWith_paused T C deltaTimes app hoff
  refine ⟨h, ?_⟩
  rw [URender_gSceneLights]
  simp [orbitStep, h]

/-- C4, instance: the initial lights, orbit switched off, three calls of `URender`, then
one with the orbit switched on again. -/
theorem orbit_pause_and_resume_witness :
    (renderWith (⟨fun _ => 3 / 5, fun _ => 4 / 5, fun _ => 4 / 3, fun _ => 1, 22 / 7⟩ : Libm ℚ)
        (recordingCamera ℚ)
        { initialApp (recordingCamera ℚ) with gIsLampOrbiting := false }
        [1 / 60, 0, 1 / 30]).gSceneLights
        = ({ initialApp (recordingCamera ℚ) with gIsLampOrbiting := false } :
            App ℚ (List (ℚ × ℚ))).gSceneLights
      ∧ (URender (⟨fun _ => 3 / 5, fun _ => 4 / 5, fun _ => 4 / 3, fun _ => 1, 22 / 7⟩ : Libm ℚ)
          (recordingCamera ℚ)
          { renderWith (⟨fun _ => 3 / 5, fun _ => 4 / 5, fun _ => 4 / 3, fun _ => 1, 22 / 7⟩ : Libm ℚ)
              (recordingCamera ℚ)
              { initialApp (recordingCamera ℚ) with gIsLampOrbiting := false }
              [1 / 60, 0, 1 / 30] with
            gIsLampOrbiting := true, gDeltaTime := 1 / 60 }).1.gSceneLights
          = ({ initialApp (recordingCamera ℚ) with gIsLampOrbiting := false } :
              App ℚ (List (ℚ × ℚ))).gSceneLights.map
            (orbitLight (⟨fun _ => 3 / 5, fun _ => 4 / 5, fun _ => 4 / 3, fun _ => 1, 22 / 7⟩ : Libm ℚ)
              (1 / 60)) :=
  orbit_pause_and_resume (⟨fun _ => 3 / 5, fun _ => 4 / 5, fun _ => 4 / 3, fun _ => 1, 22 / 7⟩ : Libm ℚ)
    (recordingCamera ℚ) { initialApp (recordingCamera ℚ) with gIsLampOrbiting := false }
    [1 / 60, 0, 1 / 30] (1 / 60) rfl

/-! ## The fragment shader -/

/-- C5: over the reals, whatever `sqrt` and `pow` are, `CalcPointLight` returns
`(lightIntensity + max(dot(normalize(normal), normalize(lightPos - fragPos)), 0.2)) * lightColor`;
its specular term is the zero vector and its diffuse factor is at least 0.2. -/
theorem CalcPointLight_value (G : Glsl ℝ) (vertexNormal lightPos lightColor : Vec3 ℝ)
    (lightIntensity : ℝ) (vertexFragmentPos viewPosition : Vec3 ℝ) :
    CalcPointLight G vertexNormal lightPos lightColor lightIntensity vertexFragmentPos
        viewPosition
      = Vec3.smul
          (lightIntensity + max (dot (normalize G vertexNormal)
            (normalize G (lightPos.sub vertexFragmentPos))) (2 / 10))
          lightColor
      ∧ (CalcPointLightTerms G vertexNormal lightPos lightColor lightIntensity
          vertexFragmentPos viewPosition).specular = ⟨0, 0, 0⟩
      ∧ (2 / 10 : ℝ) ≤ (CalcPointLightTerms G vertexNormal lightPos lightColor lightIntensity
          vertexFragmentPos viewPosition).impact := by
  refine ⟨?_, ?_, ?_⟩
  · simp only [CalcPointLight, CalcPointLightTerms, Vec3.smul, Vec3.add, zero_mul, add_zero]
    congr 1 <;> ring
  · simp only [CalcPointLightTerms, Vec3.smul, zero_mul]
  · exact le_max_right _ _

/-! ## Textures and shader programs -/

/-- C7: `UCreateTexture` returns true exactly when the decoder returned an image with 3 or
4 channels; a decoded image with another channel count makes it print the
unsupported-channel message and return false; a failed decode makes it return false. -/
theorem UCreateTexture_result {K : Type} (image : Option Image) (genName textureId : ℕ) :
    ((UCreateTexture image genName textureId : Bool × ℕ × List (Event K)).1 = true
        ↔ ∃ img, image = some img ∧ (img.channels = 3 ∨ img.channels = 4))
      ∧ (∀ img, image = some img → img.channels ≠ 3 → img.channels ≠ 4 →
          (UCreateTexture image genName textureId : Bool × ℕ × List (Event K)).1 = false
          ∧ printed (UCreateTexture image genName textureId : Bool × ℕ × List (Event K)).2.2
            = ["Not implemented to handle image with " ++ toString img.channels
                ++ " channels\n"])
      ∧ (image = none →
          (UCreateTexture image genName textureId : Bool × ℕ × List (Event K)).1 = false) := by
  refine ⟨?_, ?_, ?_⟩
  · cases image with
    | none => simp [UCreateTexture]
    | some img =>
      by_cases h3 : img.channels = 3
      · simp [UCreateTexture, h3]
      · by_cases h4 : img.channels = 4
        · simp [UCreateTexture, h4]
        · simp [UCreateTexture, h3, h4]
  · intro img him h3 h4
    subst him
    simp [UCreateTexture, h3, h4, printed]
  · intro h
    subst h
    rfl

/-- C8, the code at a 2-channel image: `UCreateTexture` returns false, but it has called
`glGenTextures`, left the new texture bound, written its name (here 1) over the
caller's `textureId` (here 0), and has not freed the image. -/
theorem UCreateTexture_two_channels :
    (UCreateTexture (some ⟨1, 1, 2⟩) 1 0 : Bool × ℕ × List (Event ℚ))
      = (false, 1,
          [.call "stbi_load", .call "stbi_set_flip_vertically_on_load",
           .glGenTextures 1, .glBindTexture 1,
           .call "glTexParameteri", .call "glTexParameteri",
           .call "glTexParameteri", .call "glTexParameteri",
           .cout "Not implemented to handle image with 2 channels\n"]) := by
  rfl

/-- C9: `UCreateShaderProgram` returns true exactly when the vertex shader compiles, the
fragment shader compiles and the program links; otherwise it prints one message and
no more, for the first stage that fails, made of that stage's heading and info log; on
success it prints nothing. -/
theorem UCreateShaderProgram_result {K : Type} (vtxShaderSource fragShaderSource : String)
    (b : ShaderBuild) :
    ((UCreateShaderProgram vtxShaderSource fragShaderSource b : Bool × ℕ × List (Event K)).1
          = true
        ↔ b.vertexCompiled = true ∧ b.fragmentCompiled = true ∧ b.linked = true)
      ∧ (b.vertexCompiled = false →
          printed (UCreateShaderProgram vtxShaderSource fragShaderSource b :
            Bool × ℕ × List (Event K)).2.2
            = ["ERROR::SHADER::VERTEX::COMPILATION_FAILED\n" ++ b.vertexInfoLog ++ "\n"])
      ∧ (b.vertexCompiled = true → b.fragmentCompiled = false →
          printed (UCreateShaderProgram vtxShaderSource fragShaderSource b :
            Bool × ℕ × List (Event K)).2.2
            = ["ERROR::SHADER::FRAGMENT::COMPILATION_FAILED\n" ++ b.fragmentInfoLog ++ "\n"])
      ∧ (b.vertexCompiled = true → b.fragmentCompiled = true → b.linked = false →
          printed (UCreateShaderProgram vtxShaderSource fragShaderSource b :
            Bool × ℕ × List (Event K)).2.2
            = ["ERROR::SHADER::PROGRAM::LINKING_FAILED\n" ++ b.programInfoLog ++ "\n"])
      ∧ ((UCreateShaderProgram vtxShaderSource fragShaderSource b :
            Bool × ℕ × List (Event K)).1 = true →
          printed (UCreateShaderProgram vtxShaderSource fragShaderSource b :
            Bool × ℕ × List (Event K)).2.2 = []) := by
  cases hv : b.vertexCompiled <;> cases hf : b.fragmentCompiled <;> cases hl : b.linked <;>
    simp [UCreateShaderProgram, hv, hf, hl, printed]

/-! ## Start-up of `main` -/

section Startup

variable {K : Type}

theorem UInitialize_draws_nothing (windowCreated glewOk : Bool) (glewErrorString : String) :
    (UInitialize windowCreated glewOk glewErrorString : Bool × List (Event K)).2.any
      Event.rendersFrame = false := by
  cases windowCreated <;> cases glewOk <;> rfl

theorem UCreateMesh_draws_nothing [LinearOrderedField K] (vao vbo : ℕ) :
    (UCreateMesh vao vbo : GLMesh × List (Event K)).2.any Event.rendersFrame = false := rfl

theorem UCreateShaderProgram_draws_nothing (vtxShaderSource fragShaderSource : String)
    (b : ShaderBuild) :
    (UCreateShaderProgram vtxShaderSource fragShaderSource b : Bool × ℕ × List (Event K)).2.2.any
      Event.rendersFrame = false := by
  cases hv : b.vertexCompiled <;> cases hf : b.fragmentCompiled <;> cases hl : b.linked <;>
    simp [UCreateShaderProgram, hv, hf, hl, Event.rendersFrame]

theorem UCreateTexture_draws_nothing (image : Option Image) (genName textureId : ℕ) :
    (UCreateTexture image genName textureId : Bool × ℕ × List (Event K)).2.2.any
      Event.rendersFrame = false := by
  cases image with
  | none => rfl
  | some img =>
    by_cases h3 : img.channels = 3
    · simp [UCreateTexture, h3, Event.rendersFrame]
    · by_cases h4 : img.channels = 4
      · simp [UCreateTexture, h4, Event.rendersFrame]
      · simp [UCreateTexture, h3, h4, Event.rendersFrame]

end Startup

/-- C6: `main` returns `EXIT_FAILURE` exactly when one of `UInitialize`, the three calls of
`UCreateShaderProgram` and `UCreateTexture` returns false; a run that draws anything has
had all five return true; and a run in which one of them fails consists of the steps up
to and including the first failing one (after a failed `UCreateTexture`, the message of
`main`), with no later creation step and no frame. -/
theorem main_fail_fast {K Cam : Type} [LinearOrderedField K] [FloorRing K] (T : Libm K)
    (C : CameraApi K Cam) (d : Driver) (frames : List (FrameInput K)) :
    let init : Bool × List (Event K) := UInitialize d.windowCreated d.glewOk d.glewErrorString
    let mesh : GLMesh × List (Event K) := UCreateMesh d.meshVao d.meshVbo
    let p0 : Bool × ℕ × List (Event K) :=
      UCreateShaderProgram "vertexShaderSource" "fragmentShaderSource" d.pyramidBuild
    let p1 : Bool × ℕ × List (Event K) :=
      UCreateShaderProgram "lampVertexShaderSource" "lampFragmentShaderSource" d.lamp0Build
    let p2 : Bool × ℕ × List (Event K) :=
      UCreateShaderProgram "lampVertexShaderSource" "lampFragmentShaderSource" d.lamp1Build
    let tex : Bool × ℕ × List (Event K) := UCreateTexture d.image d.textureName 0
    let run := main T C d frames
    (run.exitCode = some EXIT_FAILURE
        ↔ ¬ (init.1 = true ∧ p0.1 = true ∧ p1.1 = true ∧ p2.1 = true ∧ tex.1 = true))
      ∧ (run.events.any Event.rendersFrame = true →
          init.1 = true ∧ p0.1 = true ∧ p1.1 = true ∧ p2.1 = true ∧ tex.1 = true)
      ∧ (init.1 = false → run.events = init.2)
      ∧ (init.1 = true → p0.1 = false → run.events = init.2 ++ mesh.2 ++ p0.2.2)
      ∧ (init.1 = true → p0.1 = true → p1.1 = false →
          run.events = init.2 ++ mesh.2 ++ p0.2.2 ++ p1.2.2)
      ∧ (init.1 = true → p0.1 = true → p1.1 = true → p2.1 = false →
          run.events = init.2 ++ mesh.2 ++ p0.2.2 ++ p1.2.2 ++ p2.2.2)
      ∧ (init.1 = true → p0.1 = true → p1.1 = true → p2.1 = true → tex.1 = false →
          run.events = init.2 ++ mesh.2 ++ p0.2.2 ++ p1.2.2 ++ p2.2.2 ++ tex.2.2
            ++ [.cout "Failed to load texture brick.jpg\n"]) := by
  have ninit := @UInitialize_draws_nothing K d.windowCreated d.glewOk d.glewErrorString
  have nmesh := @UCreateMesh_draws_nothing K _ d.meshVao d.meshVbo
  have np0 := @UCreateShaderProgram_draws_nothing K "vertexShaderSource" "fragmentShaderSource"
    d.pyramidBuild
  have np1 := @UCreateShaderProgram_draws_nothing K "lampVertexShaderSource"
    "lampFragmentShaderSource" d.lamp0Build
  have np2 := @UCreateShaderProgram_draws_nothing K "lampVertexShaderSource"
    "lampFragmentShaderSource" d.lamp1Build
  have ntex := @UCreateTexture_draws_nothing K d.image d.textureName 0
  simp only [main, initialApp]
  generalize (UInitialize d.windowCreated d.glewOk d.glewErrorString : Bool × List (Event K))
    = init at ninit ⊢
  generalize (UCreateMesh d.meshVao d.meshVbo : GLMesh × List (Event K)) = mesh at nmesh ⊢
  generalize (UCreateShaderProgram "vertexShaderSource" "fragmentShaderSource" d.pyramidBuild :
    Bool × ℕ × List (Event K)) = p0 at np0 ⊢
  generalize (UCreateShaderProgram "lampVertexShaderSource" "lampFragmentShaderSource"
    d.lamp0Build : Bool × ℕ × List (Event K)) = p1 at np1 ⊢
  generalize (UCreateShaderProgram "lampVertexShaderSource" "lampFragmentShaderSource"
    d.lamp1Build : Bool × ℕ × List (Event K)) = p2 at np2 ⊢
  generalize (UCreateTexture d.image d.textureName 0 : Bool × ℕ × List (Event K)) = tex
    at ntex ⊢
  obtain ⟨i, ie⟩ := init
  obtain ⟨b0, id0, e0⟩ := p0
  obtain ⟨b1, id1, e1⟩ := p1
  obtain ⟨b2, id2, e2⟩ := p2
  obtain ⟨bt, idt, et⟩ := tex
  simp only at ninit np0 np1 np2 ntex
  cases i
  · simp [ninit]
  cases b0
  · simp [ninit, nmesh, np0]
  cases b1
  · simp [ninit, nmesh, np0, np1]
  cases b2
  · simp [ninit, nmesh, np0, np1, np2]
  cases bt
  · simp [ninit, nmesh, np0, np1, np2, ntex, Event.rendersFrame]
  simp only [Bool.not_true, Bool.false_eq_true, if_false, and_self, not_true_eq_false,
    iff_false, implies_true, false_implies, and_true, true_implies]
  split_ifs <;> simp [EXIT_FAILURE, EXIT_SUCCESS]

/-! ## The frame clock -/

section FrameLemmas

variable {K Cam : Type} [LinearOrderedField K] [FloorRing K]

theorem UMousePositionCallback_keeps (C : CameraApi K Cam) (xpos ypos : K) (app : App K Cam) :
    (UMousePositionCallback C xpos ypos app).gSceneLights = app.gSceneLights
      ∧ (UMousePositionCallback C xpos ypos app).gDeltaTime = app.gDeltaTime
      ∧ (UMousePositionCallback C xpos ypos app).gLastFrame = app.gLastFrame
      ∧ (UMousePositionCallback C xpos ypos app).gIsLampOrbiting = app.gIsLampOrbiting := by
  unfold UMousePositionCallback
  dsimp only
  split_ifs <;> exact ⟨rfl, rfl, rfl, rfl⟩

/-- The callbacks that `glfwPollEvents` runs leave lights, clock and orbit flag alone. -/
theorem glfwPollEvents_keeps (C : CameraApi K Cam) (events : List (WindowEvent K)) :
    ∀ app : App K Cam,
      (glfwPollEvents C events app).1.gSceneLights = app.gSceneLights
        ∧ (glfwPollEvents C events app).1.gDeltaTime = app.gDeltaTime
        ∧ (glfwPollEvents C events app).1.gLastFrame = app.gLastFrame
        ∧ (glfwPollEvents C events app).1.gIsLampOrbiting = app.gIsLampOrbiting := by
  induction events with
  | nil => intro app; exact ⟨rfl, rfl, rfl, rfl⟩
  | cons event rest ih =>
    intro app
    cases event with
    | framebufferSize width height => exact ih app
    | cursorPos xpos ypos =>
      have h := ih (UMousePositionCallback C xpos ypos app)
      have k := UMousePositionCallback_keeps C xpos ypos app
      exact ⟨h.1.trans k.1, h.2.1.trans k.2.1, h.2.2.1.trans k.2.2.1, h.2.2.2.trans k.2.2.2⟩
    | scroll xoffset yoffset => exact ih (UMouseScrollCallback C xoffset yoffset app)
    | close => exact ih { app with windowShouldClose := true }

/-- The clock and the lights after one pass of the render loop. -/
theorem frame_state (T : Libm K) (C : CameraApi K Cam) (f : FrameInput K) (app : App K Cam) :
    (frame T C f app).1.gDeltaTime = toFloat (toFloat f.time - app.gLastFrame)
      ∧ (frame T C f app).1.gLastFrame = toFloat f.time
      ∧ (frame T C f app).1.gSceneLights
          = orbitStep T (UProcessInput C f.keys app).gIsLampOrbiting
              (toFloat (toFloat f.time - app.gLastFrame)) app.gSceneLights
      ∧ (frame T C f app).1.gIsLampOrbiting = (UProcessInput C f.keys app).gIsLampOrbiting := by
  have hp := glfwPollEvents_keeps C f.events
    (URender T C (UProcessInput C f.keys (frameClock f.time app))).1
  have hflag : (UProcessInput C f.keys (frameClock f.time app)).gIsLampOrbiting
      = (UProcessInput C f.keys app).gIsLampOrbiting := by
    rw [UProcessInput_gIsLampOrbiting, UProcessInput_gIsLampOrbiting]
    rfl
  refine ⟨?_, ?_, ?_, ?_⟩
  · exact hp.2.1.trans (UProcessInput_gDeltaTime C f.keys _)
  · exact hp.2.2.1.trans (UProcessInput_gLastFrame C f.keys _)
  · refine hp.1.trans ?_
    rw [URender_gSceneLights, UProcessInput_gSceneLights, UProcessInput_gDeltaTime, hflag]
    rfl
  · exact hp.2.2.2.trans hflag

theorem toFloat_four : toFloat (4 : K) = 4 := by
  have h := roundBinary_of 24 (-126) (4 : K) 2 (2 ^ 23)
    (by norm_num [abs_of_pos]) (by norm_num [abs_of_pos]) (by norm_num) (by norm_num)
  unfold toFloat
  rw [h]
  norm_num

theorem toFloat_two : toFloat (2 : K) = 2 := by
  have h := roundBinary_of 24 (-126) (2 : K) 1 (2 ^ 23)
    (by norm_num [abs_of_pos]) (by norm_num [abs_of_pos]) (by norm_num) (by norm_num)
  unfold toFloat
  rw [h]
  norm_num

theorem toFloat_neg_two : toFloat (-2 : K) = -2 := by
  have h := roundBinary_of 24 (-126) (-2 : K) 1 (-(2 ^ 23))
    (by norm_num [abs_of_neg]) (by norm_num [abs_of_neg]) (by norm_num) (by norm_num)
  unfold toFloat
  rw [h]
  norm_num

end FrameLemmas

/-- C10, as the code has it: nothing guards the elapsed time.  On every pass of the render
loop `gDeltaTime` is the `float` difference between the clock reading (converted to
`float`) and `gLastFrame`, whatever its sign; `UProcessInput` hands that value to
`ProcessKeyboard` for every pressed movement key, and `URender` rotates the lights by
`radians(45)` times that value whenever the orbit is on. -/
theorem frame_delta_unguarded {K Cam : Type} [LinearOrderedField K] [FloorRing K] (T : Libm K)
    (C : CameraApi K Cam) (f : FrameInput K) (app : App K Cam) :
    (frame T C f app).1.gDeltaTime = toFloat (toFloat f.time - app.gLastFrame)
      ∧ (frame T C f app).1.gLastFrame = toFloat f.time
      ∧ (UProcessInput C f.keys (frameClock f.time app)).gCamera
          = [(f.keys.w, Camera_Movement.FORWARD), (f.keys.s, Camera_Movement.BACKWARD),
              (f.keys.a, Camera_Movement.LEFT), (f.keys.d, Camera_Movement.RIGHT),
              (f.keys.e, Camera_Movement.UP), (f.keys.q, Camera_Movement.DOWN)].foldl
              (fun cam key =>
                if key.1 then
                  C.ProcessKeyboard key.2 (toFloat (toFloat f.time - app.gLastFrame)) cam
                else cam)
              app.gCamera
      ∧ (frame T C f app).1.gSceneLights
          = if (UProcessInput C f.keys app).gIsLampOrbiting then
              app.gSceneLights.map (orbitLight T (toFloat (toFloat f.time - app.gLastFrame)))
            else app.gSceneLights := by
  have h := frame_state T C f app
  exact ⟨h.1, h.2.1, UProcessInput_gCamera C f.keys (frameClock f.time app), h.2.2.1⟩

/-- C10 fails as stated: from the initial globals, with real sine and cosine and no key
pressed, the clock readings 4 and then 2 give the second pass the difference -2, and that
pass turns the lights by -90 degrees: from (-2, 1/2, -1) and (3, 2, -1) to (1, 1/2, -2)
and (1, 2, 3). -/
theorem frame_negative_delta_moves_lights :
    (frame ⟨Real.cos, Real.sin, Real.tan, Real.sqrt, Real.pi⟩ (recordingCamera ℝ) ⟨4, noKeys, []⟩
        (initialApp (recordingCamera ℝ))).1.gSceneLights.map (fun l => l.lightPosition)
        = [⟨-2, 1 / 2, -1⟩, ⟨3, 2, -1⟩]
      ∧ (frame ⟨Real.cos, Real.sin, Real.tan, Real.sqrt, Real.pi⟩ (recordingCamera ℝ) ⟨2, noKeys, []⟩
          (frame ⟨Real.cos, Real.sin, Real.tan, Real.sqrt, Real.pi⟩ (recordingCamera ℝ) ⟨4, noKeys, []⟩
            (initialApp (recordingCamera ℝ))).1).1.gDeltaTime = -2
      ∧ (frame ⟨Real.cos, Real.sin, Real.tan, Real.sqrt, Real.pi⟩ (recordingCamera ℝ) ⟨2, noKeys, []⟩
          (frame ⟨Real.cos, Real.sin, Real.tan, Real.sqrt, Real.pi⟩ (recordingCamera ℝ) ⟨4, noKeys, []⟩
            (initialApp (recordingCamera ℝ))).1).1.gSceneLights.map (fun l => l.lightPosition)
        = [⟨1, 1 / 2, -2⟩, ⟨1, 2, 3⟩] := by
  have a1 : (45 * (Real.pi / 180) * 4 : ℝ) = Real.pi := by ring
  have a2 : (45 * (Real.pi / 180) * (-2) : ℝ) = -(Real.pi / 2) := by ring
  have s1 := frame_state ⟨Real.cos, Real.sin, Real.tan, Real.sqrt, Real.pi⟩ (recordingCamera ℝ)
    ⟨4, noKeys, []⟩ (initialApp (recordingCamera ℝ))
  have s2 := frame_state ⟨Real.cos, Real.sin, Real.tan, Real.sqrt, Real.pi⟩ (recordingCamera ℝ)
    ⟨2, noKeys, []⟩ (frame ⟨Real.cos, Real.sin, Real.tan, Real.sqrt, Real.pi⟩ (recordingCamera ℝ)
      ⟨4, noKeys, []⟩ (initialApp (recordingCamera ℝ))).1
  have d1 : toFloat (toFloat (4 : ℝ) - (initialApp (recordingCamera ℝ)).gLastFrame) = 4 := by
    simp [initialApp, toFloat_four]
  have d2 : toFloat (toFloat (2 : ℝ) - toFloat (4 : ℝ)) = -2 := by
    rw [toFloat_two, toFloat_four]
    norm_num [toFloat_neg_two]
  have f1 : (UProcessInput (recordingCamera ℝ) noKeys
      (initialApp (recordingCamera ℝ))).gIsLampOrbiting = true := by
    simp [UProcessInput_gIsLampOrbiting, noKeys, initialApp]
  have l1 : (frame ⟨Real.cos, Real.sin, Real.tan, Real.sqrt, Real.pi⟩ (recordingCamera ℝ) ⟨4, noKeys, []⟩
        (initialApp (recordingCamera ℝ))).1.gSceneLights
      = [ ⟨0, ⟨-2, 1 / 2, -1⟩, ⟨3 / 10, 3 / 10, 3 / 10⟩, ⟨1 / 10, 8 / 10, 1 / 10⟩, 1⟩,
          ⟨0, ⟨3, 2, -1⟩, ⟨3 / 10, 3 / 10, 3 / 10⟩, ⟨1 / 10, 1 / 10, 8 / 10⟩, 1 / 10⟩ ] := by
    rw [s1.2.2.1]
    simp only [d1, f1, orbitStep, if_true]
    simp [initialApp, orbitLight, rotate, glmNormalize, Mat4.mulVec, radians, a1]
  have f2 : (UProcessInput (recordingCamera ℝ) noKeys
      (frame ⟨Real.cos, Real.sin, Real.tan, Real.sqrt, Real.pi⟩ (recordingCamera ℝ) ⟨4, noKeys, []⟩
        (initialApp (recordingCamera ℝ))).1).gIsLampOrbiting = true := by
    rw [UProcessInput_gIsLampOrbiting, s1.2.2.2, f1]
    rfl
  have l2 : (frame ⟨Real.cos, Real.sin, Real.tan, Real.sqrt, Real.pi⟩ (recordingCamera ℝ) ⟨2, noKeys, []⟩
        (frame ⟨Real.cos, Real.sin, Real.tan, Real.sqrt, Real.pi⟩ (recordingCamera ℝ) ⟨4, noKeys, []⟩
          (initialApp (recordingCamera ℝ))).1).1.gSceneLights
      = [ ⟨0, ⟨1, 1 / 2, -2⟩, ⟨3 / 10, 3 / 10, 3 / 10⟩, ⟨1 / 10, 8 / 10, 1 / 10⟩, 1⟩,
          ⟨0, ⟨1, 2, 3⟩, ⟨3 / 10, 3 / 10, 3 / 10⟩, ⟨1 / 10, 1 / 10, 8 / 10⟩, 1 / 10⟩ ] := by
    rw [s2.2.2.1, s1.2.1, l1]
    simp only [d2, f2, orbitStep, if_true]
    simp [orbitLight, rotate, glmNormalize, Mat4.mulVec, radians, a2]
  refine ⟨?_, ?_, ?_⟩
  · rw [l1]
    rfl
  · rw [s2.1, s1.2.1]
    exact d2
  · rw [l2]
    rfl
/-! ## The mesh -/

/-- C13: `UCreateMesh` sets `nVertices` to the number of floats of `verts` divided by 8
(3 position, 3 normal and 2 texture floats per vertex); `verts` holds 144 floats, a
multiple of 8, so the count is 18 and nothing is lost in the division. -/
theorem UCreateMesh_nVertices {K : Type} [LinearOrderedField K] (vao vbo : ℕ) :
    (UCreateMesh vao vbo : GLMesh × List (Event K)).1.nVertices
        = (verts : List K).length / (3 + 3 + 2)
      ∧ (verts : List K).length = 144
      ∧ (verts : List K).length % 8 = 0
      ∧ (UCreateMesh vao vbo : GLMesh × List (Event K)).1.nVertices = 18
      ∧ (UCreateMesh vao vbo : GLMesh × List (Event K)).1.nVertices * 8
        = (verts : List K).length := by
  have h : (verts : List K).length = 144 := rfl
  simp only [UCreateMesh, h, sizeofGLfloat]
  decide

/-! ## The rate of the orbit -/

/-- Position of a light after one orbit update with real sine and cosine: the rotation
about the Y axis by the angle pi / 4 times the delta time. -/
theorem orbitLight_position (light : GLLight ℝ) (t : ℝ) :
    (orbitLight ⟨Real.cos, Real.sin, Real.tan, Real.sqrt, Real.pi⟩ t light).lightPosition
      = ⟨Real.cos (Real.pi / 4 * t) * light.lightPosition.x
            + Real.sin (Real.pi / 4 * t) * light.lightPosition.z,
          light.lightPosition.y,
          -Real.sin (Real.pi / 4 * t) * light.lightPosition.x
            + Real.cos (Real.pi / 4 * t) * light.lightPosition.z⟩ := by
  have a : (45 * (Real.pi / 180) * t : ℝ) = Real.pi / 4 * t := by ring
  simp only [orbitLight, rotate, glmNormalize, Mat4.mulVec, radians,
    mul_zero, mul_one, zero_add, add_zero, Real.sqrt_one, div_one, a]
  congr 1 <;> ring

/-- Two orbit updates in a row are the update with the sum of the delta times. -/
theorem orbitLight_add (light : GLLight ℝ) (d1 d2 : ℝ) :
    orbitLight ⟨Real.cos, Real.sin, Real.tan, Real.sqrt, Real.pi⟩ d2
        (orbitLight ⟨Real.cos, Real.sin, Real.tan, Real.sqrt, Real.pi⟩ d1 light)
      = orbitLight ⟨Real.cos, Real.sin, Real.tan, Real.sqrt, Real.pi⟩ (d1 + d2) light := by
  have e : ∀ (l : GLLight ℝ) (t : ℝ),
      orbitLight ⟨Real.cos, Real.sin, Real.tan, Real.sqrt, Real.pi⟩ t l
        = { l with lightPosition :=
            (orbitLight ⟨Real.cos, Real.sin, Real.tan, Real.sqrt, Real.pi⟩ t l).lightPosition } :=
    fun _ _ => rfl
  rw [e (orbitLight _ d1 light) d2, e light (d1 + d2), e light d1]
  simp only [orbitLight_position]
  have a : Real.pi / 4 * (d1 + d2) = Real.pi / 4 * d1 + Real.pi / 4 * d2 := by ring
  rw [a, Real.cos_add, Real.sin_add]
  congr 2 <;> ring

theorem orbitLight_zero (light : GLLight ℝ) :
    orbitLight ⟨Real.cos, Real.sin, Real.tan, Real.sqrt, Real.pi⟩ 0 light = light := by
  have e : orbitLight ⟨Real.cos, Real.sin, Real.tan, Real.sqrt, Real.pi⟩ 0 light
      = { light with lightPosition :=
          (orbitLight ⟨Real.cos, Real.sin, Real.tan, Real.sqrt, Real.pi⟩ 0 light).lightPosition } :=
    rfl
  rw [e, orbitLight_position]
  simp

/-- C14: over the reals, the orbit update with `d1` followed by the one with `d2` gives
the position of one update with `d1 + d2`; so calls of `URender` with the orbit on, whose
delta times sum to `t`, leave each light where one update with `t` puts it, which is the
rotation about the Y axis by pi / 4 (45 degrees) times `t`. -/
theorem orbit_rate_independent_of_frames {Cam : Type} (C : CameraApi ℝ Cam) :
    (∀ (light : GLLight ℝ) (d1 d2 : ℝ),
        orbitLight ⟨Real.cos, Real.sin, Real.tan, Real.sqrt, Real.pi⟩ d2
            (orbitLight ⟨Real.cos, Real.sin, Real.tan, Real.sqrt, Real.pi⟩ d1 light)
          = orbitLight ⟨Real.cos, Real.sin, Real.tan, Real.sqrt, Real.pi⟩ (d1 + d2) light)
      ∧ (∀ (app : App ℝ Cam) (deltaTimes : List ℝ), app.gIsLampOrbiting = true →
          (renderWith ⟨Real.cos, Real.sin, Real.tan, Real.sqrt, Real.pi⟩ C app
              deltaTimes).gSceneLights
            = app.gSceneLights.map
                (orbitLight ⟨Real.cos, Real.sin, Real.tan, Real.sqrt, Real.pi⟩ deltaTimes.sum))
      ∧ ∀ (light : GLLight ℝ) (t : ℝ),
          (orbitLight ⟨Real.cos, Real.sin, Real.tan, Real.sqrt, Real.pi⟩ t light).lightPosition
            = ⟨Real.cos (Real.pi / 4 * t) * light.lightPosition.x
                  + Real.sin (Real.pi / 4 * t) * light.lightPosition.z,
                light.lightPosition.y,
                -Real.sin (Real.pi / 4 * t) * light.lightPosition.x
                  + Real.cos (Real.pi / 4 * t) * light.lightPosition.z⟩ := by
  refine ⟨orbitLight_add, ?_, orbitLight_position⟩
  intro app deltaTimes
  induction deltaTimes generalizing app with
  | nil =>
    intro _
    show app.gSceneLights = _
    simp only [List.sum_nil]
    rw [List.map_congr_left (fun l _ => orbitLight_zero l), List.map_id']
  | cons dt rest ih =>
    intro h
    show (renderWith _ C (URender _ C { app with gDeltaTime := dt }).1 rest).gSceneLights = _
    rw [ih _ (by rw [URender_gIsLampOrbiting]; exact h), URender_gSceneLights]
    simp only [orbitStep, h, if_true, List.map_map, List.sum_cons]
    exact List.map_congr_left (fun l _ => orbitLight_add l dt rest.sum)

/-! ## The projection -/

section Projection

variable {K Cam : Type}

theorem projectionUploads_append (a b : List (Event K)) :
    projectionUploads (a ++ b) = projectionUploads a ++ projectionUploads b := by
  induction a with
  | nil => rfl
  | cons e rest ih =>
    cases e <;> simp only [List.cons_append, projectionUploads] <;>
      first
        | exact ih
        | (split_ifs
           · exact congrArg (List.cons _) ih
           · exact ih)

theorem viewportAfter_append (a b : List (Event K)) :
    ∀ size : ℤ × ℤ, viewportAfter size (a ++ b) = viewportAfter (viewportAfter size a) b := by
  induction a with
  | nil => intro size; rfl
  | cons e rest ih =>
    intro size
    cases e <;> simp only [List.cons_append, viewportAfter] <;> exact ih _

theorem lightUniforms_projection (program : ℕ) (lights : List (GLLight K)) :
    ∀ i : ℕ, projectionUploads (lightUniforms program i lights) = []
      ∧ ∀ size : ℤ × ℤ, viewportAfter size (lightUniforms program i lights) = size := by
  induction lights with
  | nil => intro i; exact ⟨rfl, fun _ => rfl⟩
  | cons light rest ih =>
    intro i
    refine ⟨?_, fun size => ?_⟩
    · simp only [lightUniforms, List.cons_append, projectionUploads]
      exact (ih (i + 1)).1
    · simp only [lightUniforms, List.cons_append, viewportAfter]
      exact (ih (i + 1)).2 size

theorem drawLamps_projection [LinearOrderedField K] (view projection : Mat4 K)
    (nVertices : ℕ) (lights : List (GLLight K)) :
    projectionUploads (drawLamps view projection nVertices lights)
        = List.replicate lights.length projection
      ∧ ∀ size : ℤ × ℤ, viewportAfter size (drawLamps view projection nVertices lights) = size := by
  induction lights with
  | nil => exact ⟨rfl, fun _ => rfl⟩
  | cons light rest ih =>
    refine ⟨?_, fun size => ?_⟩
    · simp only [drawLamps, List.cons_append, projectionUploads, List.length_cons,
        List.replicate_succ]
      simp only [String.reduceEq, if_false, if_true]
      exact congrArg (List.cons _) ih.1
    · simp only [drawLamps, List.cons_append, viewportAfter]
      exact ih.2 size

theorem orbitStep_length [Field K] (T : Libm K) (flag : Bool) (gDeltaTime : K)
    (lights : List (GLLight K)) : (orbitStep T flag gDeltaTime lights).length = lights.length := by
  cases flag <;> simp [orbitStep]

/-- The projection matrices that `URender` uploads: one for the pyramid program and one
per lamp, each `perspective(radians(Zoom), 800 / 600, 0.1, 100)`; and `URender` does not
touch the viewport. -/
theorem URender_projectionUploads [LinearOrderedField K] (T : Libm K) (C : CameraApi K Cam)
    (app : App K Cam) :
    projectionUploads (URender T C app).2
        = List.replicate (app.gSceneLights.length + 1)
            (perspective T (radians T (C.Zoom app.gCamera)) (800 / 600) (1 / 10) 100)
      ∧ ∀ size : ℤ × ℤ, viewportAfter size (URender T C app).2 = size := by
  have hw : ((WINDOW_WIDTH : ℤ) : K) / ((WINDOW_HEIGHT : ℤ) : K) = 800 / 600 := by
    norm_num [WINDOW_WIDTH, WINDOW_HEIGHT]
  rw [← hw]
  have hl := lightUniforms_projection app.shaderProgramId
    (orbitStep T app.gIsLampOrbiting app.gDeltaTime app.gSceneLights) 0
  have hd := drawLamps_projection (C.GetViewMatrix app.gCamera)
    (perspective T (radians T (C.Zoom app.gCamera))
      (((WINDOW_WIDTH : ℤ) : K) / ((WINDOW_HEIGHT : ℤ) : K)) (1 / 10) 100)
    app.gMesh.nVertices (orbitStep T app.gIsLampOrbiting app.gDeltaTime app.gSceneLights)
  rw [orbitStep_length] at hd
  have he : (URender T C app).2
      = [.call "glEnable", .call "glClearColor", .call "glClear",
          .glBindVertexArray app.gMesh.vao, .glUseProgram app.shaderProgramId,
          .glUniformMatrix4fv app.shaderProgramId "model"
            (((translate app.pyramidPosition).mul (rotate T (83 / 10) ⟨0, 1, 0⟩)).mul
              (scale app.pyramidScale)),
          .glUniformMatrix4fv app.shaderProgramId "view" (C.GetViewMatrix app.gCamera),
          .glUniformMatrix4fv app.shaderProgramId "projection"
            (perspective T (radians T (C.Zoom app.gCamera))
              (((WINDOW_WIDTH : ℤ) : K) / ((WINDOW_HEIGHT : ℤ) : K)) (1 / 10) 100)]
        ++ lightUniforms app.shaderProgramId 0
            (orbitStep T app.gIsLampOrbiting app.gDeltaTime app.gSceneLights)
        ++ [.glUniform3f app.shaderProgramId "viewPosition" (C.Position app.gCamera),
            .glUniform2fv app.shaderProgramId "uvScale" app.gUVScale,
            .call "glActiveTexture", .glBindTexture app.gTextureId,
            .glDrawArrays 0 app.gMesh.nVertices]
        ++ drawLamps (C.GetViewMatrix app.gCamera)
            (perspective T (radians T (C.Zoom app.gCamera))
              (((WINDOW_WIDTH : ℤ) : K) / ((WINDOW_HEIGHT : ℤ) : K)) (1 / 10) 100)
            app.gMesh.nVertices
            (orbitStep T app.gIsLampOrbiting app.gDeltaTime app.gSceneLights)
        ++ [.glBindVertexArray 0, .glUseProgram 0, .glfwSwapBuffers] := rfl
  rw [he]
  refine ⟨?_, fun size => ?_⟩
  · rw [projectionUploads_append, projectionUploads_append, projectionUploads_append,
      projectionUploads_append, hl.1, hd.1]
    simp only [projectionUploads, String.reduceEq, if_false, if_true, List.append_nil,
      List.singleton_append, List.replicate_succ]
  · rw [viewportAfter_append, viewportAfter_append, viewportAfter_append,
      viewportAfter_append, hd.2, hl.2]
    rfl

theorem glfwPollEvents_projectionUploads [LinearOrderedField K] [FloorRing K]
    (C : CameraApi K Cam) (events : List (WindowEvent K)) :
    ∀ app : App K Cam, projectionUploads (glfwPollEvents C events app).2 = [] := by
  induction events with
  | nil => intro app; rfl
  | cons event rest ih =>
    intro app
    cases event with
    | framebufferSize width height =>
      simp only [glfwPollEvents, UResizeWindow, List.cons_append, List.nil_append,
        projectionUploads]
      exact ih app
    | cursorPos xpos ypos => exact ih _
    | scroll xoffset yoffset => exact ih _
    | close => exact ih _

/-- The projection uploads and the viewport of one pass of the render loop. -/
theorem frame_projectionUploads [LinearOrderedField K] [FloorRing K] (T : Libm K)
    (C : CameraApi K Cam) (f : FrameInput K) (app : App K Cam) :
    projectionUploads (frame T C f app).2
        = List.replicate (app.gSceneLights.length + 1)
            (perspective T
              (radians T (C.Zoom (UProcessInput C f.keys (frameClock f.time app)).gCamera))
              (800 / 600) (1 / 10) 100)
      ∧ ∀ size : ℤ × ℤ, viewportAfter size (frame T C f app).2
          = viewportAfter size (glfwPollEvents C f.events
              (URender T C (UProcessInput C f.keys (frameClock f.time app))).1).2 := by
  have he : (frame T C f app).2
      = (URender T C (UProcessInput C f.keys (frameClock f.time app))).2
        ++ (glfwPollEvents C f.events
            (URender T C (UProcessInput C f.keys (frameClock f.time app))).1).2 := rfl
  have hu := URender_projectionUploads T C (UProcessInput C f.keys (frameClock f.time app))
  have hlen : (UProcessInput C f.keys (frameClock f.time app)).gSceneLights
      = app.gSceneLights := UProcessInput_gSceneLights C f.keys _
  rw [he]
  refine ⟨?_, fun size => ?_⟩
  · rw [projectionUploads_append, glfwPollEvents_projectionUploads, List.append_nil, hu.1,
      hlen]
  · rw [viewportAfter_append, hu.2]

end Projection

/-- C11, as the code has it: in every frame the aspect ratio that `URender` passes to the
perspective projection is the constant `WINDOW_WIDTH / WINDOW_HEIGHT` = 800 / 600, also
after `UResizeWindow` has set the viewport to any width and height (the field of view is
`radians(Zoom)`, near 0.1, far 100); `URender` itself leaves the viewport as it is. -/
theorem URender_aspect_is_window_constant {K Cam : Type} [LinearOrderedField K] [FloorRing K]
    (T : Libm K) (C : CameraApi K Cam) (app : App K Cam) (width height : ℤ) (size : ℤ × ℤ) :
    viewportAfter size (glfwPollEvents C [.framebufferSize width height] app).2
        = (width, height)
      ∧ projectionUploads
          (URender T C (glfwPollEvents C [.framebufferSize width height] app).1).2
        = List.replicate (app.gSceneLights.length + 1)
            (perspective T (radians T (C.Zoom app.gCamera)) (800 / 600) (1 / 10) 100)
      ∧ projectionUploads (URender T C app).2
        = List.replicate (app.gSceneLights.length + 1)
            (perspective T (radians T (C.Zoom app.gCamera)) (800 / 600) (1 / 10) 100)
      ∧ viewportAfter size (URender T C app).2 = size := by
  refine ⟨rfl, ?_, (URender_projectionUploads T C app).1,
    (URender_projectionUploads T C app).2 size⟩
  exact (URender_projectionUploads T C app).1

/-- C11 fails as stated: with real tangent and a camera whose field of view is 45
degrees, a resize to 1000 x 500 arriving in the first pass of the render loop sets the
viewport to 1000 x 500, and the second pass still uploads, three times, the projection
with aspect ratio 800 / 600, which is not the projection with aspect ratio 1000 / 500. -/
theorem URender_aspect_ignores_resize :
    viewportAfter (800, 600)
        (frame ⟨Real.cos, Real.sin, Real.tan, Real.sqrt, Real.pi⟩ (fixedCamera ℝ)
          ⟨1, noKeys, [.framebufferSize 1000 500]⟩ (initialApp (fixedCamera ℝ))).2
        = (1000, 500)
      ∧ projectionUploads
          (frame ⟨Real.cos, Real.sin, Real.tan, Real.sqrt, Real.pi⟩ (fixedCamera ℝ)
            ⟨2, noKeys, []⟩
            (frame ⟨Real.cos, Real.sin, Real.tan, Real.sqrt, Real.pi⟩ (fixedCamera ℝ)
              ⟨1, noKeys, [.framebufferSize 1000 500]⟩ (initialApp (fixedCamera ℝ))).1).2
        = List.replicate 3
            (perspective ⟨Real.cos, Real.sin, Real.tan, Real.sqrt, Real.pi⟩
              (radians ⟨Real.cos, Real.sin, Real.tan, Real.sqrt, Real.pi⟩ 45)
              (800 / 600) (1 / 10) 100)
      ∧ perspective ⟨Real.cos, Real.sin, Real.tan, Real.sqrt, Real.pi⟩
          (radians ⟨Real.cos, Real.sin, Real.tan, Real.sqrt, Real.pi⟩ 45) (800 / 600) (1 / 10) 100
        ≠ perspective ⟨Real.cos, Real.sin, Real.tan, Real.sqrt, Real.pi⟩
          (radians ⟨Real.cos, Real.sin, Real.tan, Real.sqrt, Real.pi⟩ 45) (1000 / 500) (1 / 10)
            100
      ∧ (800 / 600 : ℝ) ≠ 1000 / 500 := by
  refine ⟨?_, ?_, ?_, by norm_num⟩
  · rw [(frame_projectionUploads _ _ _ _).2]
    rfl
  · rw [(frame_projectionUploads _ _ _ _).1, (frame_state _ _ _ _).2.2.1, orbitStep_length]
    rfl
  · intro h
    have hx := congrArg (fun m => m.c0.x) h
    have ht : 0 < Real.tan (45 * (Real.pi / 180) / 2) :=
      Real.tan_pos_of_pos_of_lt_pi_div_two (by positivity) (by linarith [Real.pi_pos])
    simp only [perspective, radians] at hx
    generalize Real.tan (45 * (Real.pi / 180) / 2) = t at ht hx
    have ht0 : t ≠ 0 := ne_of_gt ht
    field_simp at hx
    linarith

/-! ## Shutdown -/

/-- C12, the code on a run that ends: `UDestroyTexture` calls `glGenTextures` on its
parameter and deletes nothing.  In the run where start-up succeeds (objects numbered
from 1) and Escape is pressed in the first pass, `main` exits with `EXIT_SUCCESS` after
the teardown calls listed; before them the vertex array 1, the buffer 1, the texture 1,
the programs 1, 2, 3 and the shaders 1 to 6 exist; after them the texture 1 still exists,
a new texture 2 has been created, and the six shaders still exist. -/
theorem main_teardown_leaves_texture :
    (∀ textureId genName : ℕ,
        (UDestroyTexture textureId genName : List (Event ℝ)) = [.glGenTextures genName])
      ∧ (main ⟨Real.cos, Real.sin, Real.tan, Real.sqrt, Real.pi⟩ (fixedCamera ℝ) okDriver
          [⟨1, { noKeys with escape := true }, []⟩]).exitCode = some EXIT_SUCCESS
      ∧ (main ⟨Real.cos, Real.sin, Real.tan, Real.sqrt, Real.pi⟩ (fixedCamera ℝ) okDriver
          [⟨1, { noKeys with escape := true }, []⟩]).events.drop
            ((main ⟨Real.cos, Real.sin, Real.tan, Real.sqrt, Real.pi⟩ (fixedCamera ℝ) okDriver
              [⟨1, { noKeys with escape := true }, []⟩]).events.length - 6)
          = [.glDeleteVertexArrays 1, .glDeleteBuffers 1, .glGenTextures 2,
              .glDeleteProgram 1, .glDeleteProgram 2, .glDeleteProgram 3]
      ∧ liveObjects ((main ⟨Real.cos, Real.sin, Real.tan, Real.sqrt, Real.pi⟩ (fixedCamera ℝ)
          okDriver [⟨1, { noKeys with escape := true }, []⟩]).events.take
            ((main ⟨Real.cos, Real.sin, Real.tan, Real.sqrt, Real.pi⟩ (fixedCamera ℝ) okDriver
              [⟨1, { noKeys with escape := true }, []⟩]).events.length - 6))
          = ⟨[1], [1], [1], [1, 2, 3], [1, 2, 3, 4, 5, 6]⟩
      ∧ liveObjects (main ⟨Real.cos, Real.sin, Real.tan, Real.sqrt, Real.pi⟩ (fixedCamera ℝ)
          okDriver [⟨1, { noKeys with escape := true }, []⟩]).events
          = ⟨[], [], [1, 2], [], [1, 2, 3, 4, 5, 6]⟩ := by
  refine ⟨fun _ _ => rfl, ?_, ?_, ?_, ?_⟩ <;> rfl

/-! ## The orbit in binary32 -/

section FloatOrbitLemmas

variable {K : Type} [LinearOrderedField K] [FloorRing K]

theorem roundHalfEven_of_up (q : K) (n : ℤ) (h1 : (n : K) - 1 / 2 < q) (h2 : q ≤ n) :
    roundHalfEven q = n := by
  rcases eq_or_lt_of_le h2 with h | h
  · rw [h]
    exact roundHalfEven_intCast n
  · have hf : ⌊q⌋ = n - 1 := Int.floor_eq_iff.2 ⟨by push_cast; linarith, by push_cast; linarith⟩
    unfold roundHalfEven
    rw [hf, if_neg (by push_cast; linarith), if_pos (by push_cast; linarith)]
    ring

/-- The value of `roundBinary` at a number in the binade `2 ^ e ≤ |q| < 2 ^ (e + 1)` that
lies less than half a spacing below the multiple `n` of the spacing. -/
theorem roundBinary_of_up (p : ℕ) (emin : ℤ) (q : K) (e n : ℤ)
    (h1 : (2 : K) ^ e ≤ |q|) (h2 : |q| < (2 : K) ^ (e + 1))
    (h3 : ((n : K) - 1 / 2) * (2 : K) ^ (max e emin - ((p : ℤ) - 1)) < q)
    (h4 : q ≤ (n : K) * (2 : K) ^ (max e emin - ((p : ℤ) - 1))) :
    roundBinary p emin q = n * (2 : K) ^ (max e emin - ((p : ℤ) - 1)) := by
  have hq : q ≠ 0 := by
    intro h
    rw [h, abs_zero] at h1
    exact absurd h1 (not_le.2 (by positivity))
  have hu : quantum p emin q = (2 : K) ^ (max e emin - ((p : ℤ) - 1)) := by
    unfold quantum
    rw [log_two_eq _ e h1 h2]
  have hpos : (0 : K) < (2 : K) ^ (max e emin - ((p : ℤ) - 1)) := by positivity
  unfold roundBinary
  rw [if_neg hq, hu, roundHalfEven_of_up _ n ((lt_div_iff₀ hpos).2 h3) ((div_le_iff₀ hpos).2 h4)]

theorem toFloat_one : toFloat (1 : K) = 1 := by
  simpa using (isFloat_intCast (1 : ℤ) (by norm_num) : IsFloat ((1 : ℤ) : K)).1

theorem toFloat_neg_one : toFloat (-1 : K) = -1 := by
  simpa using (isFloat_intCast (-1 : ℤ) (by norm_num) : IsFloat ((-1 : ℤ) : K)).1

theorem toFloat_radians_constant :
    toFloat (1745329251994329576923690768489 / 10 ^ 32 : K) = 9370165 / 2 ^ 29 := by
  have h := roundBinary_of 24 (-126) (1745329251994329576923690768489 / 10 ^ 32 : K) (-6) 9370165
    (by norm_num [abs_of_pos]) (by norm_num [abs_of_pos]) (by norm_num) (by norm_num)
  unfold toFloat
  rw [h]
  norm_num

theorem radiansFloat_45 : radiansFloat (45 : K) = 13176795 / 2 ^ 24 := by
  have h := roundBinary_of_up 24 (-126) (45 * (9370165 / 2 ^ 29) : K) (-1) 13176795
    (by norm_num [abs_of_pos]) (by norm_num [abs_of_pos]) (by norm_num) (by norm_num)
  unfold radiansFloat
  rw [toFloat_radians_constant]
  unfold toFloat
  rw [h]
  norm_num

theorem toFloat_orbit_angle : toFloat (13176795 / 2 ^ 24 * 2 : K) = 13176795 / 2 ^ 23 := by
  have h := roundBinary_of 24 (-126) (13176795 / 2 ^ 24 * 2 : K) 0 13176795
    (by norm_num [abs_of_pos]) (by norm_num [abs_of_pos]) (by norm_num) (by norm_num)
  unfold toFloat
  rw [h]
  norm_num

end FloatOrbitLemmas

/-- The `float` angle 13176795 / 2^23 of a quarter turn exceeds pi / 2 by about
4.371139e-8. -/
theorem orbit_angle_excess :
    (13176795 / 2 ^ 23 : ℝ) - 3.14159265358979323847 / 2 < 13176795 / 2 ^ 23 - Real.pi / 2
      ∧ (13176795 / 2 ^ 23 : ℝ) - Real.pi / 2 < 13176795 / 2 ^ 23 - 3.14159265358979323846 / 2 := by
  constructor <;> linarith [Real.pi_gt_d20, Real.pi_lt_d20]

theorem sin_orbit_excess :
    (12303662 / 2 ^ 48 : ℝ) ≤ Real.sin (13176795 / 2 ^ 23 - Real.pi / 2)
      ∧ Real.sin (13176795 / 2 ^ 23 - Real.pi / 2) < (12303662 + 1 / 2) / 2 ^ 48 := by
  obtain ⟨hlo, hhi⟩ := orbit_angle_excess
  generalize (13176795 / 2 ^ 23 : ℝ) - Real.pi / 2 = d at hlo hhi
  have hlo' : (4371138 / 10 ^ 14 : ℝ) < d := lt_trans (by norm_num) hlo
  have hhi' : d < (4371140 / 10 ^ 14 : ℝ) := lt_trans hhi (by norm_num)
  have hd0 : 0 < d := lt_trans (by norm_num) hlo'
  have hd1 : d ≤ 1 := le_of_lt (lt_trans hhi' (by norm_num))
  have h1 := Real.sin_lt hd0
  have h2 := Real.sin_gt_sub_cube hd0 hd1
  have h3 : d ^ 3 ≤ (4371140 / 10 ^ 14 : ℝ) ^ 3 := pow_le_pow_left₀ hd0.le hhi'.le 3
  constructor
  · have : (12303662 / 2 ^ 48 : ℝ)
        ≤ (13176795 / 2 ^ 23 - 3.14159265358979323847 / 2) - (4371140 / 10 ^ 14 : ℝ) ^ 3 / 4 := by
      norm_num
    linarith
  · have : (13176795 / 2 ^ 23 : ℝ) - 3.14159265358979323846 / 2 < (12303662 + 1 / 2) / 2 ^ 48 := by
      norm_num
    linarith

theorem cos_orbit_angle :
    Real.cos (13176795 / 2 ^ 23) = -Real.sin (13176795 / 2 ^ 23 - Real.pi / 2)
      ∧ Real.sin (13176795 / 2 ^ 23) = Real.cos (13176795 / 2 ^ 23 - Real.pi / 2) := by
  have e : (13176795 / 2 ^ 23 : ℝ) = (13176795 / 2 ^ 23 - Real.pi / 2) + Real.pi / 2 := by ring
  constructor
  · conv_lhs => rw [e]
    exact Real.cos_add_pi_div_two _
  · conv_lhs => rw [e]
    exact Real.sin_add_pi_div_two _

/-- The value of `cosf` at the `float` angle of a quarter turn, correctly rounded. -/
theorem toFloat_cos_orbit_angle :
    toFloat (Real.cos (13176795 / 2 ^ 23)) = -(12303662 / 2 ^ 48) := by
  obtain ⟨h1, h2⟩ := sin_orbit_excess
  rw [cos_orbit_angle.1]
  generalize Real.sin (13176795 / 2 ^ 23 - Real.pi / 2) = s at h1 h2
  have hs : 0 < s := lt_of_lt_of_le (by norm_num) h1
  have h := roundBinary_of_up 24 (-126) (-s) (-25) (-12303662)
    (by rw [abs_neg, abs_of_pos hs]; exact le_trans (by norm_num) h1)
    (by rw [abs_neg, abs_of_pos hs]; exact lt_trans h2 (by norm_num))
    (by norm_num; linarith) (by norm_num; linarith)
  unfold toFloat
  rw [h]
  norm_num

/-- The value of `sinf` at the `float` angle of a quarter turn, correctly rounded. -/
theorem toFloat_sin_orbit_angle : toFloat (Real.sin (13176795 / 2 ^ 23)) = 1 := by
  obtain ⟨hlo, hhi⟩ := orbit_angle_excess
  rw [cos_orbit_angle.2]
  generalize (13176795 / 2 ^ 23 : ℝ) - Real.pi / 2 = d at hlo hhi
  have hd0 : 0 < d := lt_trans (by norm_num) hlo
  have hd1 : d < 1 / 10 ^ 7 := lt_trans hhi (by norm_num)
  have hpi : d ≤ Real.pi / 2 := by linarith [Real.pi_gt_d20]
  have h1 : Real.cos d < 1 := by
    have := Real.cos_lt_cos_of_nonneg_of_le_pi_div_two le_rfl hpi hd0
    rwa [Real.cos_zero] at this
  have h2 : 1 - d ^ 2 / 2 ≤ Real.cos d := Real.one_sub_sq_div_two_le_cos
  have h3 : d ^ 2 ≤ (1 / 10 ^ 7 : ℝ) ^ 2 := pow_le_pow_left₀ hd0.le hd1.le 2
  have h4 : (1 - 1 / 10 ^ 14 : ℝ) ≤ Real.cos d := by
    have : (1 / 10 ^ 7 : ℝ) ^ 2 = 1 / 10 ^ 14 := by norm_num
    linarith
  generalize Real.cos d = c at h1 h4
  have hc : 0 < c := lt_of_lt_of_le (by norm_num) h4
  have h := roundBinary_of_up 24 (-126) c (-1) (2 ^ 24)
    (by rw [abs_of_pos hc]; exact le_trans (by norm_num) h4)
    (by rw [abs_of_pos hc]; exact lt_of_lt_of_le h1 (by norm_num))
    (by norm_num; linarith) (by norm_num; linarith)
  unfold toFloat
  rw [h]
  norm_num

section FloatOrbitValues

variable {K : Type} [LinearOrderedField K] [FloorRing K]

theorem toFloat_cos_value : toFloat (-(12303662 / 2 ^ 48) : K) = -(12303662 / 2 ^ 48) := by
  have h := roundBinary_of_up 24 (-126) (-(12303662 / 2 ^ 48) : K) (-25) (-12303662)
    (by norm_num [abs_of_neg]) (by norm_num [abs_of_neg]) (by norm_num) (by norm_num)
  unfold toFloat
  rw [h]
  norm_num

theorem toFloat_one_sub_cos : toFloat (1 - -(12303662 / 2 ^ 48) : K) = 1 := by
  have h := roundBinary_of 24 (-126) (1 - -(12303662 / 2 ^ 48) : K) 0 (2 ^ 23)
    (by norm_num [abs_of_pos]) (by norm_num [abs_of_pos]) (by norm_num) (by norm_num)
  unfold toFloat
  rw [h]
  norm_num

theorem toFloat_cos_add_one : toFloat (-(12303662 / 2 ^ 48) + 1 : K) = 1 - 1 / 2 ^ 24 := by
  have h := roundBinary_of 24 (-126) (-(12303662 / 2 ^ 48) + 1 : K) (-1) (2 ^ 24 - 1)
    (by norm_num [abs_of_pos]) (by norm_num [abs_of_pos]) (by norm_num) (by norm_num)
  unfold toFloat
  rw [h]
  norm_num

theorem toFloat_cos_mul_two :
    toFloat (-(12303662 / 2 ^ 48) * 2 : K) = -(12303662 / 2 ^ 47) := by
  have h := roundBinary_of_up 24 (-126) (-(12303662 / 2 ^ 48) * 2 : K) (-24) (-12303662)
    (by norm_num [abs_of_neg]) (by norm_num [abs_of_neg]) (by norm_num) (by norm_num)
  unfold toFloat
  rw [h]
  norm_num

theorem toFloat_x_sum : toFloat (-(12303662 / 2 ^ 47) + 1 : K) = 1 - 1 / 2 ^ 24 := by
  have h := roundBinary_of_up 24 (-126) (-(12303662 / 2 ^ 47) + 1 : K) (-1) (2 ^ 24 - 1)
    (by norm_num [abs_of_pos]) (by norm_num [abs_of_pos]) (by norm_num) (by norm_num)
  unfold toFloat
  rw [h]
  norm_num

theorem toFloat_cos_value_two : toFloat (-(12303662 / 2 ^ 47) : K) = -(12303662 / 2 ^ 47) := by
  have h := roundBinary_of_up 24 (-126) (-(12303662 / 2 ^ 47) : K) (-24) (-12303662)
    (by norm_num [abs_of_neg]) (by norm_num [abs_of_neg]) (by norm_num) (by norm_num)
  unfold toFloat
  rw [h]
  norm_num

theorem toFloat_y_product :
    toFloat ((1 - 1 / 2 ^ 24) * (1 / 2) : K) = (1 - 1 / 2 ^ 24) / 2 := by
  have h := roundBinary_of 24 (-126) ((1 - 1 / 2 ^ 24) * (1 / 2) : K) (-2) (2 ^ 24 - 1)
    (by norm_num [abs_of_pos]) (by norm_num [abs_of_pos]) (by norm_num) (by norm_num)
  unfold toFloat
  rw [h]
  norm_num

theorem toFloat_y_value : toFloat ((1 - 1 / 2 ^ 24) / 2 : K) = (1 - 1 / 2 ^ 24) / 2 := by
  have h := roundBinary_of 24 (-126) ((1 - 1 / 2 ^ 24) / 2 : K) (-2) (2 ^ 24 - 1)
    (by norm_num [abs_of_pos]) (by norm_num [abs_of_pos]) (by norm_num) (by norm_num)
  unfold toFloat
  rw [h]
  norm_num

theorem toFloat_z_sum : toFloat (-2 + -(12303662 / 2 ^ 48) : K) = -2 := by
  have h := roundBinary_of_up 24 (-126) (-2 + -(12303662 / 2 ^ 48) : K) 1 (-(2 ^ 23))
    (by norm_num [abs_of_neg]) (by norm_num [abs_of_neg]) (by norm_num) (by norm_num)
  unfold toFloat
  rw [h]
  norm_num

end FloatOrbitValues

/-- The orbit update as the program computes it, in binary32 with correctly rounded
`cosf`, `sinf` and `sqrtf`, for the key light at (2, 1/2, 1) and `gDeltaTime = 2`. -/
theorem orbitLightFloat_quarter_turn :
    (orbitLightFloat
        ⟨fun a => toFloat (Real.cos a), fun a => toFloat (Real.sin a),
          fun a => toFloat (Real.tan a), fun a => toFloat (Real.sqrt a), Real.pi⟩
        2 ⟨0, ⟨2, 1 / 2, 1⟩, ⟨3 / 10, 3 / 10, 3 / 10⟩, ⟨1 / 10, 8 / 10, 1 / 10⟩, 1⟩).lightPosition
      = ⟨1 - 1 / 2 ^ 24, (1 - 1 / 2 ^ 24) / 2, -2⟩ := by
  have e : (-1 : ℝ) * 2 = -2 := by norm_num
  simp only [orbitLightFloat, radiansFloat_45, toFloat_orbit_angle, rotateFloat,
    glmNormalizeFloat, Mat4.mulVecFloat, toFloat_cos_orbit_angle, toFloat_sin_orbit_angle,
    mul_zero, zero_mul, mul_one, one_mul, add_zero, zero_add, sub_zero, zero_sub, sub_self,
    toFloat_zero, toFloat_one, Real.sqrt_one, div_one, toFloat_neg_one, toFloat_cos_value,
    toFloat_one_sub_cos, toFloat_cos_add_one, toFloat_cos_mul_two, toFloat_x_sum,
    toFloat_cos_value_two, toFloat_y_product, toFloat_y_value, toFloat_z_sum, toFloat_neg_two, e]

/-- C3 fails as stated for the binary32 program: with correctly rounded `cosf`, `sinf` and
`sqrtf`, the orbit update of the key light at (2, 1/2, 1) with `gDeltaTime = 2` gives
(1 - 2^-24, (1 - 2^-24) / 2, -2), that is (0.99999994, 0.49999997, -2): `x'^2 + z'^2` is
not `x^2 + z^2 = 5` and `y'` is not `y = 1/2`. -/
theorem orbitLightFloat_changes_radius_and_height :
    (orbitLightFloat
        ⟨fun a => toFloat (Real.cos a), fun a => toFloat (Real.sin a),
          fun a => toFloat (Real.tan a), fun a => toFloat (Real.sqrt a), Real.pi⟩
        2 ⟨0, ⟨2, 1 / 2, 1⟩, ⟨3 / 10, 3 / 10, 3 / 10⟩, ⟨1 / 10, 8 / 10, 1 / 10⟩, 1⟩).lightPosition
        = ⟨1 - 1 / 2 ^ 24, (1 - 1 / 2 ^ 24) / 2, -2⟩
      ∧ (orbitLightFloat
          ⟨fun a => toFloat (Real.cos a), fun a => toFloat (Real.sin a),
            fun a => toFloat (Real.tan a), fun a => toFloat (Real.sqrt a), Real.pi⟩
          2 ⟨0, ⟨2, 1 / 2, 1⟩, ⟨3 / 10, 3 / 10, 3 / 10⟩, ⟨1 / 10, 8 / 10, 1 / 10⟩, 1⟩).lightPosition.x ^ 2
          + (orbitLightFloat
            ⟨fun a => toFloat (Real.cos a), fun a => toFloat (Real.sin a),
              fun a => toFloat (Real.tan a), fun a => toFloat (Real.sqrt a), Real.pi⟩
            2 ⟨0, ⟨2, 1 / 2, 1⟩, ⟨3 / 10, 3 / 10, 3 / 10⟩, ⟨1 / 10, 8 / 10, 1 / 10⟩,
              1⟩).lightPosition.z ^ 2
        ≠ (2 : ℝ) ^ 2 + 1 ^ 2
      ∧ (orbitLightFloat
          ⟨fun a => toFloat (Real.cos a), fun a => toFloat (Real.sin a),
            fun a => toFloat (Real.tan a), fun a => toFloat (Real.sqrt a), Real.pi⟩
          2 ⟨0, ⟨2, 1 / 2, 1⟩, ⟨3 / 10, 3 / 10, 3 / 10⟩, ⟨1 / 10, 8 / 10, 1 / 10⟩, 1⟩).lightPosition.y
        ≠ 1 / 2 := by
  rw [orbitLightFloat_quarter_turn]
  refine ⟨rfl, ?_, ?_⟩ <;> norm_num

end PyramidLighting
